import Mathlib

/-!
Verification of the appointment/task management MCP servers
(`main.py`, the client-facing appointment variant, and `main_oldd.py`, the
personal-task variant) against their natural-language specification.

The two Python modules store rows in a shared SQLite database
(`calendario_prenotazioni.db`).  We embed the database as explicit lists of
rows, SQLite's binary TEXT comparison as a lexicographic comparison on
character code points, and each `@mcp.tool()` function as a Lean function
from a database state (plus a clock value standing for `CURRENT_TIMESTAMP`)
to a result dictionary and a new database state.  Python exceptions are
embedded as `Except String`; the `try/except` wrapper of every tool becomes
an explicit handler that turns an exception into a `success = False`
dictionary, exactly as the source does.
-/

/-! ## SQLite TEXT comparison

SQLite compares two TEXT values with `memcmp` over their bytes; for the
ASCII strings handled here this is the lexicographic order on code points,
with a proper prefix sorting first. -/

/-- Code-point comparison of two characters, as SQLite's byte comparison
sees ASCII text. -/
def charLt (a b : Char) : Bool := decide (a.toNat < b.toNat)

/-- Lexicographic comparison of two character lists (SQLite `<` on TEXT). -/
def charsLt : List Char → List Char → Bool
  | [], [] => false
  | [], _ :: _ => true
  | _ :: _, [] => false
  | a :: as, b :: bs => charLt a b || (a.toNat == b.toNat && charsLt as bs)

/-- SQLite `<` on TEXT values. -/
def sqlLt (s t : String) : Bool := charsLt s.data t.data

/-- SQLite `<=` on TEXT values (total order: `s <= t` iff not `t < s`). -/
def sqlLe (s t : String) : Bool := !sqlLt t s

/-! ## `HH:MM` times

`datetime.strptime(x, '%H:%M')` followed by adding `timedelta(minutes = d)`
and `strftime('%H:%M')` computes `(minutes + d) mod 24*60` and renders it
zero-padded.  We model clock times as minutes since midnight.  (`strptime`
also tolerates single-digit fields; the embedding parses the canonical
zero-padded form, which is also the only form the program itself stores in
`ora_fine`.) -/

/-- The ASCII digit character for `n` (meaningful for `n < 10`). -/
def digitChar (n : Nat) : Char := Char.ofNat (48 + n)

/-- Render minutes-since-midnight as a zero-padded `HH:MM` string, as
`strftime('%H:%M')` does (meaningful for `t < 1440`). -/
def toHHMM (t : Nat) : String :=
  ⟨[digitChar (t / 60 / 10), digitChar (t / 60 % 10), ':',
    digitChar (t % 60 / 10), digitChar (t % 60 % 10)]⟩

/-- Parse a canonical `HH:MM` string into minutes since midnight;
`none` embeds the `ValueError` that `datetime.strptime` raises. -/
def parseHHMM (s : String) : Option Nat :=
  match s.data with
  | [c1, c2, ':', c3, c4] =>
    if c1.isDigit && c2.isDigit && c3.isDigit && c4.isDigit then
      let h := (c1.toNat - 48) * 10 + (c2.toNat - 48)
      let m := (c3.toNat - 48) * 10 + (c4.toNat - 48)
      if h < 24 && m < 60 then some (h * 60 + m) else none
    else none
  | _ => none

/-! ## Data model

The union of the columns that the two variants read or write on the shared
`appuntamenti` table, plus the `clienti` and `storico_modifiche` tables and
the AUTOINCREMENT counter.  Timestamps (`CURRENT_TIMESTAMP`) are modelled
by an abstract clock value `now : Nat` passed to every mutating operation. -/

structure Cliente where
  id_cliente : Nat
  nome : String
  cognome : String
  telefono : String
  attivo : Bool := true
deriving DecidableEq

structure Appuntamento where
  id_appuntamento : Nat
  id_cliente : Option Nat := none
  id_tipo : Option Nat := none
  id_categoria : Option Nat := none
  data_appuntamento : String
  ora_inizio : Option String := none
  ora_fine : Option String := none
  titolo : String
  descrizione : Option String := none
  priorita : String := "media"
  difficolta : Nat := 3
  tempo_stimato_ore : Option ℚ := none
  stato : String := "da_fare"
  urgente : Bool := false
  luogo : Option String := none
  note : Option String := none
  data_creazione : Nat := 0
  data_modifica : Nat := 0
  data_completamento : Option Nat := none
deriving DecidableEq

structure StoricoModifica where
  id_appuntamento : Nat
  tipo_modifica : String
  descrizione_modifica : String
  data_modifica : Nat
deriving DecidableEq

structure DB where
  clienti : List Cliente := []
  appuntamenti : List Appuntamento := []
  storico_modifiche : List StoricoModifica := []
  next_id : Nat := 1
deriving DecidableEq

/-- The dictionary every tool returns: the `success` flag, and the optional
`error`/`message`/payload entries the source puts in it. -/
structure Result where
  success : Bool
  error : Option String := none
  message : Option String := none
  count : Option Nat := none
  rows : List Appuntamento := []
deriving DecidableEq

def errRes (e : String) : Result := { success := false, error := some e }

def okRes (m : String) : Result := { success := true, message := some m }

/-- The `try/except Exception` wrapper shared by every tool: a raised
exception becomes a `success = False` dictionary with the exception text,
and the uncommitted transaction is discarded, leaving the database as it
was. -/
def handle (db : DB) : Except String (Result × DB) → Result × DB
  | .ok r => r
  | .error e => (errRes e, db)

def parseErr : String := "ValueError: time data does not match format HH:MM"

/-! ## `main.py`: appointment-variant tools -/

/-- The status filter of the conflict query:
`stato NOT IN ('cancellato', 'non_presentato')`. -/
def activeStato (st : String) : Bool := st != "cancellato" && st != "non_presentato"

/-- First OR'd clause of the conflict query:
`ora_inizio < new_fine AND ora_fine > new_inizio`. -/
def overlapClause1 (s e ns ne : String) : Bool := sqlLt s ne && sqlLt ns e

/-- Second OR'd clause, bound to the same parameters as the first. -/
def overlapClause2 (s e ns ne : String) : Bool := sqlLt s ne && sqlLt ns e

/-- Third OR'd clause: `ora_inizio >= new_inizio AND ora_fine <= new_fine`. -/
def overlapClause3 (s e ns ne : String) : Bool := sqlLe ns s && sqlLe e ne

/-- The full conflict condition of `create_appointment`'s query. -/
def conflictCond (s e ns ne : String) : Bool :=
  overlapClause1 s e ns ne || overlapClause2 s e ns ne || overlapClause3 s e ns ne

/-- The classic half-open interval-overlap predicate `s1 < e2 AND e1 > s2`. -/
def classicOverlap (s e ns ne : String) : Bool := sqlLt s ne && sqlLt ns e

/-- The time part of the conflict query on one row: a NULL stored time makes
every SQL comparison NULL, so such a row never matches. -/
def conflictTimes (ns ne : String) (r : Appuntamento) : Bool :=
  match r.ora_inizio, r.ora_fine with
  | some s, some e => conflictCond s e ns ne
  | _, _ => false

/-- Whether a stored row matches the conflict query for a new appointment on
`data_app` from `ns` to `ne`: same date, status not cancelled/no-show, and
the time condition. -/
def conflictRow (data_app ns ne : String) (r : Appuntamento) : Bool :=
  r.data_appuntamento == data_app && activeStato r.stato && conflictTimes ns ne r

structure CreateAppointmentArgs where
  id_cliente : Nat
  data_appuntamento : String
  ora_inizio : String
  titolo : String
  id_tipo : Option Nat := none
  durata_minuti : Nat := 30
  descrizione : Option String := none
  urgente : Bool := false
  luogo : String := "Studio Principale"
  note : Option String := none
deriving DecidableEq

/-- The row `create_appointment` inserts, given the computed `ora_fine`. -/
def createdRow (db : DB) (now : Nat) (a : CreateAppointmentArgs) (fine : String) :
    Appuntamento :=
  { id_appuntamento := db.next_id, id_cliente := some a.id_cliente,
    id_tipo := a.id_tipo, data_appuntamento := a.data_appuntamento,
    ora_inizio := some a.ora_inizio, ora_fine := some fine, titolo := a.titolo,
    descrizione := a.descrizione, stato := "confermato", urgente := a.urgente,
    luogo := some a.luogo, note := a.note, data_creazione := now,
    data_modifica := now }

def create_appointment_raw (db : DB) (now : Nat) (a : CreateAppointmentArgs) :
    Except String (Result × DB) :=
  match db.clienti.find? (fun c => c.id_cliente == a.id_cliente) with
  | none => .ok (errRes "Cliente non trovato", db)
  | some cl =>
    match parseHHMM a.ora_inizio with
    | none => .error parseErr
    | some t =>
      match db.appuntamenti.find? (conflictRow a.data_appuntamento a.ora_inizio
          (toHHMM ((t + a.durata_minuti) % 1440))) with
      | some conflitto =>
        .ok (errRes ("Conflitto con appuntamento esistente: " ++ conflitto.titolo), db)
      | none =>
        .ok (okRes ("Appuntamento creato per " ++ cl.nome ++ " " ++ cl.cognome),
          { db with
            appuntamenti := db.appuntamenti ++
              [createdRow db now a (toHHMM ((t + a.durata_minuti) % 1440))],
            storico_modifiche := db.storico_modifiche ++
              [{ id_appuntamento := db.next_id, tipo_modifica := "creazione",
                 descrizione_modifica := "Appuntamento creato", data_modifica := now }],
            next_id := db.next_id + 1 })

def create_appointment (db : DB) (now : Nat) (a : CreateAppointmentArgs) : Result × DB :=
  handle db (create_appointment_raw db now a)

structure UpdateAppointmentArgs where
  data_appuntamento : Option String := none
  ora_inizio : Option String := none
  durata_minuti : Option Int := none
  titolo : Option String := none
  descrizione : Option String := none
  stato : Option String := none
  urgente : Option Bool := none
  note : Option String := none
deriving DecidableEq

/-- Python truthiness of an optional string parameter (`if x:`):
absent and empty are both falsy. -/
def truthyStr : Option String → Bool
  | none => false
  | some s => s != ""

/-- Python truthiness of an optional integer parameter (`if x:`):
absent and zero are both falsy. -/
def truthyInt : Option Int → Bool
  | none => false
  | some n => n != 0

def typeErr : String := "TypeError: strptime() argument 1 must be str, not None"

/-- The `else` branch of the recomputation (`Mantieni la stessa durata`):
read the stored `ora_fine` and `ora_inizio`, subtract, and add the old
duration to the new start, wrapping modulo 24 hours.  A NULL stored time
or an unparsable string raises. -/
def mantieni_durata (app : Appuntamento) (oraNuova : String) : Except String String :=
  match app.ora_fine with
  | none => .error typeErr
  | some vecchiaFine =>
    match parseHHMM vecchiaFine with
    | none => .error parseErr
    | some ef =>
      match app.ora_inizio with
      | none => .error typeErr
      | some vecchia => -- vecchio_inizio
        match parseHHMM vecchia with
        | none => .error parseErr
        | some si =>
          match parseHHMM oraNuova with
          | none => .error parseErr
          | some t => .ok (toHHMM ((((t : Int) + ((ef : Int) - (si : Int))) % 1440).toNat))

/-- Recompute `ora_fine` when `ora_inizio` changes: with a truthy
`durata_minuti` the new end is the new start plus the duration, otherwise
the stored row's duration is preserved. -/
def ricalcola_ora_fine (app : Appuntamento) (oraNuova : String) (durata : Option Int) :
    Except String String :=
  match durata with
  | some d =>
    if d != 0 then
      match parseHHMM oraNuova with
      | none => .error parseErr
      | some t => .ok (toHHMM (((t : Int) + d) % 1440).toNat)
    else mantieni_durata app oraNuova
  | none => mantieni_durata app oraNuova

/-- Apply the dynamically built `UPDATE ... SET` clause of
`update_appointment` to one row (`oraNuova` carries the new
`ora_inizio`/`ora_fine` pair when the start time was truthy). -/
def applyUpdates (r : Appuntamento) (a : UpdateAppointmentArgs)
    (oraNuova : Option (String × String)) (now : Nat) : Appuntamento :=
  let r1 : Appuntamento := match a.data_appuntamento with
            | some d => if d != "" then { r with data_appuntamento := d } else r
            | none => r
  let r2 : Appuntamento := match oraNuova with
            | some sf => { r1 with ora_inizio := some sf.1, ora_fine := some sf.2 }
            | none => r1
  let r3 : Appuntamento := match a.titolo with
            | some t => if t != "" then { r2 with titolo := t } else r2
            | none => r2
  let r4 : Appuntamento := match a.descrizione with
            | some d => { r3 with descrizione := some d }
            | none => r3
  let r5 : Appuntamento := match a.stato with
            | some st => if st != "" then { r4 with stato := st } else r4
            | none => r4
  let r6 : Appuntamento := match a.urgente with
            | some u => { r5 with urgente := u }
            | none => r5
  let r7 : Appuntamento := match a.note with
            | some n => { r6 with note := some n }
            | none => r6
  { r7 with data_modifica := now }

/-- The `modifiche` descriptions collected for the change history. -/
def modificheList (a : UpdateAppointmentArgs) (oraNuova : Option (String × String)) :
    List String :=
  (match a.data_appuntamento with
   | some d => if d != "" then ["Data modificata in " ++ d] else []
   | none => []) ++
  (match oraNuova with
   | some sf => ["Orario modificato: " ++ sf.1 ++ " - " ++ sf.2]
   | none => []) ++
  (match a.titolo with
   | some t => if t != "" then ["Titolo modificato"] else []
   | none => []) ++
  (match a.descrizione with
   | some _ => ["Descrizione aggiornata"]
   | none => []) ++
  (match a.stato with
   | some st => if st != "" then ["Stato cambiato in " ++ st] else []
   | none => []) ++
  (match a.urgente with
   | some u => ["Urgenza: " ++ if u then "SI" else "NO"]
   | none => [])

/-- The `if not updates:` test of `update_appointment`: whether the
dynamically built `UPDATE` clause is non-empty (`oraNuova` carries the new
times when the start time was truthy; `durata_minuti` alone adds nothing). -/
def anyAppUpdate (a : UpdateAppointmentArgs) (oraNuova : Option (String × String)) :
    Bool :=
  truthyStr a.data_appuntamento || oraNuova.isSome || truthyStr a.titolo ||
  a.descrizione.isSome || truthyStr a.stato || a.urgente.isSome || a.note.isSome

/-- The `JOIN clienti c ON a.id_cliente = c.id_cliente` of the appointment
variant's queries: the client row matched by an appointment, if any. -/
def joinCliente (db : DB) (r : Appuntamento) : Option Cliente :=
  match r.id_cliente with
  | none => none
  | some cid => db.clienti.find? (fun c => c.id_cliente == cid)

/-- The database state committed by a successful `UPDATE` of
`update_appointment`: the row with the id rewritten by `applyUpdates`
plus one `modifica` record appended to the history. -/
def updatedDB (db : DB) (now : Nat) (id_appuntamento : Nat)
    (a : UpdateAppointmentArgs) (oraNuova : Option (String × String)) : DB :=
  { db with
    appuntamenti := db.appuntamenti.map (fun r =>
      if r.id_appuntamento == id_appuntamento then applyUpdates r a oraNuova now
      else r),
    storico_modifiche := db.storico_modifiche ++
      [{ id_appuntamento := id_appuntamento, tipo_modifica := "modifica",
         descrizione_modifica := String.intercalate "; " (modificheList a oraNuova),
         data_modifica := now }] }

/-- The re-fetch `SELECT a.*, c.nome, c.cognome, c.telefono FROM
appuntamenti a JOIN clienti c ON a.id_cliente = c.id_cliente WHERE
a.id_appuntamento = ?` run by `update_appointment` after its commit:
`fetchone()` yields a row exactly when some row with the id joins to an
existing client; otherwise it yields `None` and `dict(None)` raises. -/
def rifetchRow (db : DB) (id_appuntamento : Nat) : Option Appuntamento :=
  db.appuntamenti.find? (fun r =>
    r.id_appuntamento == id_appuntamento && (joinCliente db r).isSome)

/-- The exception text of `dict(cursor.fetchone())` on a `None` fetch. -/
def noneFetchErr : String := "TypeError: NoneType object is not iterable"

def update_appointment_raw (db : DB) (now : Nat) (id_appuntamento : Nat)
    (a : UpdateAppointmentArgs) : Except (String × DB) (Result × DB) :=
  match db.appuntamenti.find? (fun r => r.id_appuntamento == id_appuntamento) with
  | none => .ok (errRes "Appuntamento non trovato", db)
  | some app_esistente =>
    let ora_step : Except (String × DB) (Option (String × String)) :=
      if truthyStr a.ora_inizio then
        match a.ora_inizio with
        | some s =>
          match ricalcola_ora_fine app_esistente s a.durata_minuti with
          | .ok f => .ok (some (s, f))
          | .error e => .error (e, db)
        | none => .ok none
      else .ok none
    ora_step.bind fun oraNuova =>
    if anyAppUpdate a oraNuova then
      match rifetchRow (updatedDB db now id_appuntamento a oraNuova) id_appuntamento with
      | some _ =>
        .ok ({ success := true, message := some "Appuntamento aggiornato con successo" },
          updatedDB db now id_appuntamento a oraNuova)
      | none => .error (noneFetchErr, updatedDB db now id_appuntamento a oraNuova)
    else .ok (errRes "Nessuna modifica specificata", db)

/-- The `try/except` wrapper of `update_appointment`, whose exceptions
carry the database state visible after the raise: the re-fetch runs after
`conn.commit()`, so its failure leaves the committed update in place,
while the earlier `strptime` raises leave the database unchanged. -/
def handleCommitted : Except (String × DB) (Result × DB) → Result × DB
  | .ok r => r
  | .error e => (errRes e.1, e.2)

def update_appointment (db : DB) (now : Nat) (id_appuntamento : Nat)
    (a : UpdateAppointmentArgs) : Result × DB :=
  handleCommitted (update_appointment_raw db now id_appuntamento a)

/-- The change-history description `delete_appointment` writes, as a
function of the optional `motivo`. -/
def descrizioneCancellazioneApp (motivo : Option String) : String :=
  match motivo with
  | some m => "Appuntamento cancellato. Motivo: " ++ m
  | none => "Appuntamento cancellato"

def delete_appointment (db : DB) (now : Nat) (id_appuntamento : Nat)
    (motivo : Option String) : Result × DB :=
  match db.appuntamenti.find? (fun r =>
      r.id_appuntamento == id_appuntamento && (joinCliente db r).isSome) with
  | none => (errRes "Appuntamento non trovato", db)
  | some app =>
    match joinCliente db app with
    | none => (errRes "Appuntamento non trovato", db)
    | some cl =>
      (okRes ("Appuntamento di " ++ cl.nome ++ " " ++ cl.cognome ++ " del " ++
          app.data_appuntamento ++ " cancellato"),
       { db with
         appuntamenti := db.appuntamenti.map (fun r =>
           if r.id_appuntamento == id_appuntamento then
             { r with stato := "cancellato", data_modifica := now }
           else r),
         storico_modifiche := db.storico_modifiche ++
           [{ id_appuntamento := id_appuntamento, tipo_modifica := "cancellazione",
              descrizione_modifica := descrizioneCancellazioneApp motivo,
              data_modifica := now }] })

structure ListAppointmentsArgs where
  data_da : Option String := none
  data_a : Option String := none
  stato : Option String := none
  urgente : Option Bool := none
  id_cliente : Option Nat := none
deriving DecidableEq

/-- Insertion into a list sorted by `le`. -/
def sortedInsert (le : α → α → Bool) (x : α) : List α → List α
  | [] => [x]
  | y :: ys => if le x y then x :: y :: ys else y :: sortedInsert le x ys

/-- Insertion sort, standing for the `ORDER BY` clause of a query. -/
def sortByLe (le : α → α → Bool) : List α → List α
  | [] => []
  | x :: xs => sortedInsert le x (sortByLe le xs)

/-- Ascending comparison on a nullable TEXT column (SQLite sorts NULLs
first in ascending order). -/
def optStrLe : Option String → Option String → Bool
  | none, _ => true
  | some _, none => false
  | some x, some y => !sqlLt y x

/-- Descending comparison on a nullable TEXT column (NULLs last). -/
def optStrDescLe : Option String → Option String → Bool
  | none, none => true
  | none, some _ => false
  | some _, none => true
  | some x, some y => !sqlLt x y

/-- `ORDER BY a.data_appuntamento, a.ora_inizio`. -/
def appuntamentiLe (x y : Appuntamento) : Bool :=
  sqlLt x.data_appuntamento y.data_appuntamento ||
    (x.data_appuntamento == y.data_appuntamento && optStrLe x.ora_inizio y.ora_inizio)

/-- The `WHERE` clause of `list_appointments`: the inner join on `clienti`
plus the dynamically appended filters (string and integer parameters are
tested for truthiness, `urgente` with `is not None`). -/
def matchesListFilter (today : String) (a : ListAppointmentsArgs) (db : DB)
    (r : Appuntamento) : Bool :=
  (match r.id_cliente with
   | some cid => db.clienti.any (fun c => c.id_cliente == cid)
   | none => false) &&
  (match a.data_da with
   | some d => if d != "" then sqlLe d r.data_appuntamento
               else sqlLe today r.data_appuntamento
   | none => sqlLe today r.data_appuntamento) &&
  (match a.data_a with
   | some d => if d != "" then sqlLe r.data_appuntamento d else true
   | none => true) &&
  (match a.stato with
   | some st => if st != "" then r.stato == st else true
   | none => true) &&
  (match a.urgente with
   | some u => r.urgente == u
   | none => true) &&
  (match a.id_cliente with
   | some cid => if cid != 0 then r.id_cliente == some cid else true
   | none => true)

def list_appointments (db : DB) (today : String) (a : ListAppointmentsArgs) :
    Result × DB :=
  let rs := sortByLe appuntamentiLe (db.appuntamenti.filter (matchesListFilter today a db))
  ({ success := true, count := some rs.length, rows := rs }, db)

/-- ASCII case folding of a character list (how SQLite's `LIKE` compares
ASCII text case-insensitively). -/
def lowerChars (l : List Char) : List Char := l.map Char.toLower

def isPrefixChars : List Char → List Char → Bool
  | [], _ => true
  | _ :: _, [] => false
  | a :: as, b :: bs => a == b && isPrefixChars as bs

def containsChars (pat : List Char) : List Char → Bool
  | [] => isPrefixChars pat []
  | l@(_ :: rest) => isPrefixChars pat l || containsChars pat rest

/-- `column LIKE '%q%'`: case-insensitive substring test; NULL never
matches. -/
def sqlLike (txt : Option String) (q : String) : Bool :=
  match txt with
  | none => false
  | some t => containsChars (lowerChars q.data) (lowerChars t.data)

/-- The `WHERE` clause of `search_appointments`: the join on `clienti` and
the five `LIKE` tests. -/
def matchesSearch (db : DB) (q : String) (r : Appuntamento) : Bool :=
  match joinCliente db r with
  | none => false
  | some cl =>
    sqlLike (some r.titolo) q || sqlLike r.descrizione q || sqlLike r.note q ||
    sqlLike (some cl.nome) q || sqlLike (some cl.cognome) q

def search_appointments (db : DB) (q : String) : Result × DB :=
  let rs := sortByLe (fun x y =>
      sqlLt y.data_appuntamento x.data_appuntamento ||
        (y.data_appuntamento == x.data_appuntamento &&
          optStrDescLe x.ora_inizio y.ora_inizio))
    (db.appuntamenti.filter (matchesSearch db q))
  ({ success := true, count := some rs.length, rows := rs }, db)

/-! ## `main_oldd.py`: task-variant tools (same `appuntamenti` table) -/

structure CreateTaskArgs where
  titolo : String
  data_appuntamento : String
  descrizione : Option String := none
  ora_inizio : Option String := none
  ora_fine : Option String := none
  priorita : String := "media"
  difficolta : Nat := 5
  tempo_stimato_ore : Option ℚ := none
  id_categoria : Option Nat := none
  urgente : Bool := false
  note : Option String := none
deriving DecidableEq

/-- The row `create_task` inserts (no existence check, no conflict check;
times are stored exactly as passed, possibly NULL). -/
def createdTaskRow (db : DB) (now : Nat) (a : CreateTaskArgs) : Appuntamento :=
  { id_appuntamento := db.next_id, data_appuntamento := a.data_appuntamento,
    titolo := a.titolo, descrizione := a.descrizione, ora_inizio := a.ora_inizio,
    ora_fine := a.ora_fine, id_categoria := a.id_categoria, priorita := a.priorita,
    difficolta := a.difficolta, tempo_stimato_ore := a.tempo_stimato_ore,
    urgente := a.urgente, note := a.note, stato := "da_fare",
    data_creazione := now, data_modifica := now }

def create_task (db : DB) (now : Nat) (a : CreateTaskArgs) : Result × DB :=
  ({ success := true,
     message := some ("Task '" ++ a.titolo ++ "' creato con successo") },
   { db with
     appuntamenti := db.appuntamenti ++ [createdTaskRow db now a],
     storico_modifiche := db.storico_modifiche ++
       [{ id_appuntamento := db.next_id, tipo_modifica := "creazione",
          descrizione_modifica := "Task creato", data_modifica := now }],
     next_id := db.next_id + 1 })

structure UpdateTaskArgs where
  titolo : Option String := none
  descrizione : Option String := none
  data_appuntamento : Option String := none
  ora_inizio : Option String := none
  ora_fine : Option String := none
  priorita : Option String := none
  difficolta : Option Nat := none
  tempo_stimato_ore : Option ℚ := none
  stato : Option String := none
  urgente : Option Bool := none
  note : Option String := none
deriving DecidableEq

/-- `update_task` tests every parameter with `is not None` (unlike
`update_appointment`'s truthiness tests). -/
def anyTaskUpdate (a : UpdateTaskArgs) : Bool :=
  a.titolo.isSome || a.descrizione.isSome || a.data_appuntamento.isSome ||
  a.ora_inizio.isSome || a.ora_fine.isSome || a.priorita.isSome ||
  a.difficolta.isSome || a.tempo_stimato_ore.isSome || a.stato.isSome ||
  a.urgente.isSome || a.note.isSome

def applyTaskUpdates (r : Appuntamento) (a : UpdateTaskArgs) (now : Nat) : Appuntamento :=
  let r1 : Appuntamento := match a.titolo with
    | some v => { r with titolo := v }
    | none => r
  let r2 : Appuntamento := match a.descrizione with
    | some v => { r1 with descrizione := some v }
    | none => r1
  let r3 : Appuntamento := match a.data_appuntamento with
    | some v => { r2 with data_appuntamento := v }
    | none => r2
  let r4 : Appuntamento := match a.ora_inizio with
    | some v => { r3 with ora_inizio := some v }
    | none => r3
  let r5 : Appuntamento := match a.ora_fine with
    | some v => { r4 with ora_fine := some v }
    | none => r4
  let r6 : Appuntamento := match a.priorita with
    | some v => { r5 with priorita := v }
    | none => r5
  let r7 : Appuntamento := match a.difficolta with
    | some v => { r6 with difficolta := v }
    | none => r6
  let r8 : Appuntamento := match a.tempo_stimato_ore with
    | some v => { r7 with tempo_stimato_ore := some v }
    | none => r7
  let r9 : Appuntamento := match a.stato with
    | some v =>
      if v == "completato" then { r8 with stato := v, data_completamento := some now }
      else { r8 with stato := v }
    | none => r8
  let r10 : Appuntamento := match a.urgente with
    | some v => { r9 with urgente := v }
    | none => r9
  let r11 : Appuntamento := match a.note with
    | some v => { r10 with note := some v }
    | none => r10
  { r11 with data_modifica := now }

/-- The `modifiche` descriptions collected by `update_task` (the float
`tempo_stimato_ore` is rendered abstractly: no claim depends on its text). -/
def taskModifiche (a : UpdateTaskArgs) : List String :=
  (match a.titolo with
   | some _ => ["Titolo aggiornato"]
   | none => []) ++
  (match a.descrizione with
   | some _ => ["Descrizione aggiornata"]
   | none => []) ++
  (match a.data_appuntamento with
   | some v => ["Data modificata: " ++ v]
   | none => []) ++
  (match a.ora_inizio with
   | some v => ["Orario inizio: " ++ v]
   | none => []) ++
  (match a.ora_fine with
   | some v => ["Orario fine: " ++ v]
   | none => []) ++
  (match a.priorita with
   | some v => ["Priorità: " ++ v]
   | none => []) ++
  (match a.difficolta with
   | some v => ["Difficoltà: " ++ toString v ++ "/10"]
   | none => []) ++
  (match a.tempo_stimato_ore with
   | some v => ["Tempo stimato: " ++ toString v.num ++ "h"]
   | none => []) ++
  (match a.stato with
   | some v => ["Stato: " ++ v]
   | none => []) ++
  (match a.urgente with
   | some v => ["Urgenza: " ++ if v then "SI" else "NO"]
   | none => [])

def update_task (db : DB) (now : Nat) (id_task : Nat) (a : UpdateTaskArgs) :
    Result × DB :=
  match db.appuntamenti.find? (fun r => r.id_appuntamento == id_task) with
  | none => (errRes "Task non trovato", db)
  | some _ =>
    if anyTaskUpdate a then
      ({ success := true, message := some "Task aggiornato con successo" },
       { db with
         appuntamenti := db.appuntamenti.map (fun r =>
           if r.id_appuntamento == id_task then applyTaskUpdates r a now else r),
         storico_modifiche := db.storico_modifiche ++
           [{ id_appuntamento := id_task, tipo_modifica := "modifica",
              descrizione_modifica := String.intercalate "; " (taskModifiche a),
              data_modifica := now }] })
    else (errRes "Nessuna modifica specificata", db)

def complete_task (db : DB) (now : Nat) (id_task : Nat) : Result × DB :=
  match db.appuntamenti.find? (fun r => r.id_appuntamento == id_task) with
  | none => (errRes "Task non trovato", db)
  | some t =>
    ({ success := true, message := some ("✅ Task '" ++ t.titolo ++ "' completato!") },
     { db with
       appuntamenti := db.appuntamenti.map (fun r =>
         if r.id_appuntamento == id_task then
           { r with stato := "completato", data_completamento := some now,
                    data_modifica := now }
         else r),
       storico_modifiche := db.storico_modifiche ++
         [{ id_appuntamento := id_task, tipo_modifica := "completamento",
            descrizione_modifica := "Task completato", data_modifica := now }] })

/-- The change-history description `delete_task` writes, as a function of
the optional `motivo`. -/
def descrizioneCancellazioneTask (motivo : Option String) : String :=
  match motivo with
  | some m => "Task cancellato. Motivo: " ++ m
  | none => "Task cancellato"

def delete_task (db : DB) (now : Nat) (id_task : Nat) (motivo : Option String) :
    Result × DB :=
  match db.appuntamenti.find? (fun r => r.id_appuntamento == id_task) with
  | none => (errRes "Task non trovato", db)
  | some task =>
    (okRes ("Task '" ++ task.titolo ++ "' del " ++ task.data_appuntamento ++
        " cancellato"),
     { db with
       appuntamenti := db.appuntamenti.map (fun r =>
         if r.id_appuntamento == id_task then
           { r with stato := "cancellato", data_modifica := now }
         else r),
       storico_modifiche := db.storico_modifiche ++
         [{ id_appuntamento := id_task, tipo_modifica := "cancellazione",
            descrizione_modifica := descrizioneCancellazioneTask motivo,
            data_modifica := now }] })

structure ListTasksArgs where
  data_da : Option String := none
  data_a : Option String := none
  stato : Option String := none
  priorita : Option String := none
  urgente : Option Bool := none
  categoria : Option Nat := none
deriving DecidableEq

/-- The `CASE a.priorita ... END` ranking of `list_tasks`' `ORDER BY`
(an unknown priority yields SQL NULL, which sorts first ascending). -/
def prioRank : String → Option Nat
  | "critica" => some 1
  | "alta" => some 2
  | "media" => some 3
  | "bassa" => some 4
  | _ => none

def matchesTaskFilter (today : String) (a : ListTasksArgs) (r : Appuntamento) : Bool :=
  (match a.data_da with
   | some d => if d != "" then sqlLe d r.data_appuntamento
               else sqlLe today r.data_appuntamento
   | none => sqlLe today r.data_appuntamento) &&
  (match a.data_a with
   | some d => if d != "" then sqlLe r.data_appuntamento d else true
   | none => true) &&
  (match a.stato with
   | some st => if st != "" then r.stato == st else true
   | none => true) &&
  (match a.priorita with
   | some p => if p != "" then r.priorita == p else true
   | none => true) &&
  (match a.urgente with
   | some u => r.urgente == u
   | none => true) &&
  (match a.categoria with
   | some c => if c != 0 then r.id_categoria == some c else true
   | none => true)

/-- `ORDER BY urgente DESC, CASE priorita ... END, data_appuntamento,
ora_inizio`. -/
def taskOrderLe (x y : Appuntamento) : Bool :=
  let ux : Nat := if x.urgente then 0 else 1
  let uy : Nat := if y.urgente then 0 else 1
  let px : Nat := match prioRank x.priorita with | some n => n | none => 0
  let py : Nat := match prioRank y.priorita with | some n => n | none => 0
  decide (ux < uy) || (ux == uy && (decide (px < py) || (px == py &&
    (sqlLt x.data_appuntamento y.data_appuntamento ||
      (x.data_appuntamento == y.data_appuntamento &&
        optStrLe x.ora_inizio y.ora_inizio)))))

def list_tasks (db : DB) (today : String) (a : ListTasksArgs) : Result × DB :=
  let rs := sortByLe taskOrderLe (db.appuntamenti.filter (matchesTaskFilter today a))
  ({ success := true, count := some rs.length, rows := rs }, db)

def search_tasks (db : DB) (q : String) : Result × DB :=
  let rs := sortByLe (fun x y => !sqlLt x.data_appuntamento y.data_appuntamento)
    (db.appuntamenti.filter (fun r =>
      sqlLike (some r.titolo) q || sqlLike r.descrizione q || sqlLike r.note q))
  ({ success := true, count := some rs.length, rows := rs }, db)

/-- Rows that carry a genuine half-open interval: the stored start sorts
before the stored end (a row without stored times carries no interval and
is exempt). -/
def rowInterval (r : Appuntamento) : Bool :=
  match r.ora_inizio, r.ora_fine with
  | some s, some e => sqlLt s e
  | _, _ => true

/-! ## Concrete fixtures used by witnesses and counterexamples -/

def clienteEx : Cliente :=
  { id_cliente := 1, nome := "Mario", cognome := "Rossi", telefono := "333-1234567" }

def apptEx : Appuntamento :=
  { id_appuntamento := 1, id_cliente := some 1, data_appuntamento := "2026-01-01",
    ora_inizio := some "10:00", ora_fine := some "11:00", titolo := "Visita",
    stato := "confermato" }

def dbEx : DB :=
  { clienti := [clienteEx], appuntamenti := [apptEx], next_id := 2 }

/-! ## Well-formed tool results -/

/-- A tool result is well-formed: either success, or an error string. -/
def toolOk (r : Result) : Prop := r.success = true ∨ ∃ m, r.error = some m

def dbC3 : DB :=
  { clienti := [clienteEx],
    appuntamenti :=
      [{ id_appuntamento := 1, id_cliente := some 1, data_appuntamento := "2026-01-01",
         ora_inizio := some "10:00", ora_fine := some "11:00", titolo := "Disdetto",
         stato := "cancellato" },
       { id_appuntamento := 2, id_cliente := some 1, data_appuntamento := "2026-01-02",
         ora_inizio := some "10:00", ora_fine := some "11:00", titolo := "Altro giorno",
         stato := "confermato" }],
    next_id := 3 }

/-! ## The spec's description of a conflict -/

/-- Modelled from the spec: what the spec calls a conflicting row for a new
appointment on `data_app` with half-open interval `[ns, ne)` — a same-date
row whose status is not cancelled/no-show, carrying an interval `[s, e)`
that either satisfies the general overlap test `s < ne AND e > ns`, or
entirely contains the new interval (`s <= ns AND ne <= e`). -/
def specRowConflict (data_app ns ne : String) (r : Appuntamento) : Prop :=
  r.data_appuntamento = data_app ∧ activeStato r.stato = true ∧
  ∃ s e, r.ora_inizio = some s ∧ r.ora_fine = some e ∧
    ((sqlLt s ne = true ∧ sqlLt ns e = true) ∨
     (sqlLe s ns = true ∧ sqlLe ne e = true))

def argsC1 : CreateAppointmentArgs :=
  { id_cliente := 1, data_appuntamento := "2026-01-01", ora_inizio := "10:30",
    titolo := "Nuovo appuntamento" }

/-! ## Further fixtures -/

def dbC8 : DB := { clienti := [clienteEx], appuntamenti := [], next_id := 1 }

def argsC8 : CreateAppointmentArgs :=
  { id_cliente := 1, data_appuntamento := "2026-01-02", ora_inizio := "06:00",
    titolo := "Turno lungo", durata_minuti := 1500 }

def argsC8w : CreateAppointmentArgs :=
  { id_cliente := 1, data_appuntamento := "2026-01-03", ora_inizio := "23:00",
    titolo := "Turno notturno", durata_minuti := 120 }

def apptC9 : Appuntamento :=
  { id_appuntamento := 1, id_cliente := some 1, data_appuntamento := "2026-01-01",
    ora_inizio := some "10:00", ora_fine := some "11:00", titolo := "Visita",
    stato := "confermato" }

def dbC9 : DB :=
  { clienti := [clienteEx], appuntamenti := [apptC9], next_id := 2 }

def argsC9 : UpdateAppointmentArgs := { ora_inizio := some "12:00" }

def apptC4b : Appuntamento :=
  { id_appuntamento := 2, id_cliente := some 1, data_appuntamento := "2026-01-01",
    ora_inizio := some "14:00", ora_fine := some "15:00", titolo := "Controllo",
    stato := "confermato" }

def dbC4 : DB :=
  { clienti := [clienteEx], appuntamenti := [apptEx, apptC4b], next_id := 3 }

def argsC4 : UpdateAppointmentArgs := { ora_inizio := some "10:30" }

/-- An appointment row with no linked client, as `create_task` of the task
variant inserts into the shared table (its `id_cliente` stays `NULL`). -/
def apptNoCl : Appuntamento :=
  { id_appuntamento := 4, id_cliente := none, data_appuntamento := "2026-01-02",
    ora_inizio := some "09:00", ora_fine := some "10:00", titolo := "Task",
    stato := "confermato" }

def dbNoCl : DB :=
  { clienti := [clienteEx], appuntamenti := [apptNoCl], next_id := 5 }

theorem charsLt_irrefl : ∀ l : List Char, charsLt l l = false
  | [] => rfl
  | a :: as => by
    simp [charsLt, charLt, charsLt_irrefl as]

theorem charsLt_trans : ∀ {l1 l2 l3 : List Char}, charsLt l1 l2 = true →
    charsLt l2 l3 = true → charsLt l1 l3 = true
  | [], [], _, h1, _ => by simp [charsLt] at h1
  | [], _ :: _, [], _, h2 => by simp [charsLt] at h2
  | [], _ :: _, _ :: _, _, _ => by simp [charsLt]
  | _ :: _, [], _, h1, _ => by simp [charsLt] at h1
  | _ :: _, _ :: _, [], _, h2 => by simp [charsLt] at h2
  | a :: as, b :: bs, c :: cs, h1, h2 => by
    simp only [charsLt, charLt, Bool.or_eq_true, Bool.and_eq_true, beq_iff_eq,
      decide_eq_true_eq] at h1 h2 ⊢
    rcases h1 with h1 | ⟨e1, r1⟩ <;> rcases h2 with h2 | ⟨e2, r2⟩
    · exact Or.inl (by omega)
    · exact Or.inl (by omega)
    · exact Or.inl (by omega)
    · exact Or.inr ⟨by omega, charsLt_trans r1 r2⟩

theorem charsLt_asymm {l1 l2 : List Char} (h : charsLt l1 l2 = true) :
    charsLt l2 l1 = false := by
  cases hc : charsLt l2 l1
  · rfl
  · have := charsLt_trans h hc
    rw [charsLt_irrefl] at this
    cases this

theorem charsLt_conn : ∀ {l1 l2 : List Char}, charsLt l1 l2 = false →
    charsLt l2 l1 = false → l1 = l2
  | [], [], _, _ => rfl
  | [], _ :: _, h1, _ => by simp [charsLt] at h1
  | _ :: _, [], _, h2 => by simp [charsLt] at h2
  | a :: as, b :: bs, h1, h2 => by
    simp only [charsLt, charLt, Bool.or_eq_false_iff, Bool.and_eq_false_iff,
      decide_eq_false_iff_not, beq_eq_false_iff_ne, ne_eq] at h1 h2
    obtain ⟨h1a, h1b⟩ := h1
    obtain ⟨h2a, h2b⟩ := h2
    have hab : a.toNat = b.toNat := by omega
    have hab' : a = b := Char.eq_of_val_eq (UInt32.ext hab)
    subst hab'
    rcases h1b with h1b | h1b
    · exact absurd rfl h1b
    · rcases h2b with h2b | h2b
      · exact absurd rfl h2b
      · rw [charsLt_conn h1b h2b]

theorem sqlLt_irrefl (s : String) : sqlLt s s = false := charsLt_irrefl s.data

theorem sqlLt_trans {a b c : String} (h1 : sqlLt a b = true) (h2 : sqlLt b c = true) :
    sqlLt a c = true := charsLt_trans h1 h2

theorem sqlLt_asymm {a b : String} (h : sqlLt a b = true) : sqlLt b a = false :=
  charsLt_asymm h

theorem sqlLt_conn {a b : String} (h1 : sqlLt a b = false) (h2 : sqlLt b a = false) :
    a = b := String.ext (charsLt_conn h1 h2)

/-- From `a < b` and `¬ c < b` conclude `a < c` (so `b ≤ c`). -/
theorem sqlLt_of_lt_of_nlt {a b c : String} (h1 : sqlLt a b = true)
    (h2 : sqlLt c b = false) : sqlLt a c = true := by
  cases hac : sqlLt a c
  · cases hca : sqlLt c a
    · cases sqlLt_conn hac hca
      rw [h1] at h2; cases h2
    · have := sqlLt_trans hca h1
      rw [this] at h2; cases h2
  · rfl

/-- From `¬ b < a` and `b < c` conclude `a < c` (so `a ≤ b`). -/
theorem sqlLt_of_nlt_of_lt {a b c : String} (h1 : sqlLt b a = false)
    (h2 : sqlLt b c = true) : sqlLt a c = true := by
  cases hac : sqlLt a c
  · cases hca : sqlLt c a
    · cases sqlLt_conn hac hca
      rw [h2] at h1; cases h1
    · have := sqlLt_trans h2 hca
      rw [this] at h1; cases h1
  · rfl

theorem digitChar_isDigit {n : Nat} (h : n < 10) : (digitChar n).isDigit = true := by
  have : ∀ m : Fin 10, (digitChar m.val).isDigit = true := by decide
  exact this ⟨n, h⟩

theorem digitChar_toNat {n : Nat} (h : n < 10) : (digitChar n).toNat = 48 + n := by
  have : ∀ m : Fin 10, (digitChar m.val).toNat = 48 + m.val := by decide
  exact this ⟨n, h⟩

theorem parse_toHHMM {t : Nat} (h : t < 1440) : parseHHMM (toHHMM t) = some t := by
  have h1 : t / 60 / 10 < 10 := by omega
  have h2 : t / 60 % 10 < 10 := by omega
  have h3 : t % 60 / 10 < 10 := by omega
  have h4 : t % 60 % 10 < 10 := by omega
  have hh : t / 60 < 24 := by omega
  simp only [parseHHMM, toHHMM, digitChar_isDigit h1, digitChar_isDigit h2,
    digitChar_isDigit h3, digitChar_isDigit h4, digitChar_toNat h1, digitChar_toNat h2,
    digitChar_toNat h3, digitChar_toNat h4, Bool.and_self, if_pos]
  have e1 : 48 + t / 60 / 10 - 48 = t / 60 / 10 := by omega
  have e2 : 48 + t / 60 % 10 - 48 = t / 60 % 10 := by omega
  have e3 : 48 + t % 60 / 10 - 48 = t % 60 / 10 := by omega
  have e4 : 48 + t % 60 % 10 - 48 = t % 60 % 10 := by omega
  rw [e1, e2, e3, e4]
  have hcond : ((t / 60 / 10 * 10 + t / 60 % 10 < 24 : Bool) &&
      (t % 60 / 10 * 10 + t % 60 % 10 < 60 : Bool)) = true := by
    simp only [Bool.and_eq_true, decide_eq_true_eq]
    omega
  rw [if_pos hcond]
  congr 1
  omega

/-- Rendering is monotone: an earlier time of day yields a lexicographically
smaller `HH:MM` string. -/
theorem toHHMM_sqlLt {t1 t2 : Nat} (h2 : t2 < 1440) (h : t1 < t2) :
    sqlLt (toHHMM t1) (toHHMM t2) = true := by
  have a1 : t1 / 60 / 10 < 10 := by omega
  have a2 : t1 / 60 % 10 < 10 := by omega
  have a3 : t1 % 60 / 10 < 10 := by omega
  have a4 : t1 % 60 % 10 < 10 := by omega
  have b1 : t2 / 60 / 10 < 10 := by omega
  have b2 : t2 / 60 % 10 < 10 := by omega
  have b3 : t2 % 60 / 10 < 10 := by omega
  have b4 : t2 % 60 % 10 < 10 := by omega
  simp only [sqlLt, toHHMM, charsLt, charLt, digitChar_toNat a1, digitChar_toNat a2,
    digitChar_toNat a3, digitChar_toNat a4, digitChar_toNat b1, digitChar_toNat b2,
    digitChar_toNat b3, digitChar_toNat b4, Bool.or_eq_true, Bool.and_eq_true,
    beq_iff_eq, decide_eq_true_eq, lt_self_iff_false, true_and, false_and, and_false,
    or_false, false_or, Bool.false_eq_true]
  omega

/-! ## Key equivalences of the conflict condition -/

/-- Under valid intervals the third OR'd clause implies the first. -/
theorem overlapClause3_implies_clause1 {s e ns ne : String}
    (hse : sqlLt s e = true) (h3 : overlapClause3 s e ns ne = true) :
    overlapClause1 s e ns ne = true := by
  simp only [overlapClause3, sqlLe, Bool.and_eq_true, Bool.not_eq_true'] at h3
  obtain ⟨h3a, h3b⟩ := h3
  simp only [overlapClause1, Bool.and_eq_true]
  exact ⟨sqlLt_of_lt_of_nlt hse h3b, sqlLt_of_nlt_of_lt h3a hse⟩

/-- Under valid intervals the conflict condition of the query is the classic
overlap predicate. -/
theorem conflictCond_eq_classic {s e ns ne : String} (hse : sqlLt s e = true) :
    conflictCond s e ns ne = classicOverlap s e ns ne := by
  cases h1 : overlapClause1 s e ns ne
  · cases h3 : overlapClause3 s e ns ne
    · simp [conflictCond, overlapClause2, classicOverlap, h3,
        show overlapClause1 s e ns ne = false from h1,
        show (sqlLt s ne && sqlLt ns e) = false from h1]
    · have := overlapClause3_implies_clause1 hse h3
      rw [this] at h1; cases h1
  · simp [conflictCond, overlapClause2, classicOverlap, h1,
      show (sqlLt s ne && sqlLt ns e) = true from h1]

/-- Under valid intervals the conflict condition holds exactly when the
spec's disjunction holds: general overlap, or the new interval contained in
the existing one. -/
theorem conflictCond_iff_spec {s e ns ne : String}
    (hse : sqlLt s e = true) (hnsne : sqlLt ns ne = true) :
    conflictCond s e ns ne = true ↔
      ((sqlLt s ne = true ∧ sqlLt ns e = true) ∨
       (sqlLe s ns = true ∧ sqlLe ne e = true)) := by
  rw [conflictCond_eq_classic hse]
  constructor
  · intro h
    simp only [classicOverlap, Bool.and_eq_true] at h
    exact Or.inl h
  · rintro (⟨ha, hb⟩ | ⟨ha, hb⟩)
    · simp [classicOverlap, ha, hb]
    · simp only [sqlLe, Bool.not_eq_true'] at ha hb
      simp only [classicOverlap, Bool.and_eq_true]
      exact ⟨sqlLt_of_nlt_of_lt ha hnsne, sqlLt_of_lt_of_nlt hnsne hb⟩

/-! ## Branch equations for `create_appointment` -/

theorem create_appointment_run_noclient (db : DB) (now : Nat) (a : CreateAppointmentArgs)
    (hcl : db.clienti.find? (fun c => c.id_cliente == a.id_cliente) = none) :
    create_appointment db now a = (errRes "Cliente non trovato", db) := by
  unfold create_appointment create_appointment_raw handle
  simp only [hcl]

theorem create_appointment_run_badtime (db : DB) (now : Nat) (a : CreateAppointmentArgs)
    (cl : Cliente)
    (hcl : db.clienti.find? (fun c => c.id_cliente == a.id_cliente) = some cl)
    (hp : parseHHMM a.ora_inizio = none) :
    create_appointment db now a = (errRes parseErr, db) := by
  unfold create_appointment create_appointment_raw handle
  simp only [hcl, hp]

theorem create_appointment_run_conflict (db : DB) (now : Nat) (a : CreateAppointmentArgs)
    (cl : Cliente) (t : Nat) (cf : Appuntamento)
    (hcl : db.clienti.find? (fun c => c.id_cliente == a.id_cliente) = some cl)
    (hp : parseHHMM a.ora_inizio = some t)
    (hf : db.appuntamenti.find? (conflictRow a.data_appuntamento a.ora_inizio
        (toHHMM ((t + a.durata_minuti) % 1440))) = some cf) :
    create_appointment db now a =
      (errRes ("Conflitto con appuntamento esistente: " ++ cf.titolo), db) := by
  unfold create_appointment create_appointment_raw handle
  simp only [hcl, hp, hf]

theorem create_appointment_run_ok (db : DB) (now : Nat) (a : CreateAppointmentArgs)
    (cl : Cliente) (t : Nat)
    (hcl : db.clienti.find? (fun c => c.id_cliente == a.id_cliente) = some cl)
    (hp : parseHHMM a.ora_inizio = some t)
    (hf : db.appuntamenti.find? (conflictRow a.data_appuntamento a.ora_inizio
        (toHHMM ((t + a.durata_minuti) % 1440))) = none) :
    create_appointment db now a =
      (okRes ("Appuntamento creato per " ++ cl.nome ++ " " ++ cl.cognome),
       { db with
         appuntamenti := db.appuntamenti ++
           [createdRow db now a (toHHMM ((t + a.durata_minuti) % 1440))],
         storico_modifiche := db.storico_modifiche ++
           [{ id_appuntamento := db.next_id, tipo_modifica := "creazione",
              descrizione_modifica := "Appuntamento creato", data_modifica := now }],
         next_id := db.next_id + 1 }) := by
  unfold create_appointment create_appointment_raw handle
  simp only [hcl, hp, hf]

/-! ## Claim C5 -/

theorem toolOk_handle (db : DB) (x : Except String (Result × DB))
    (h : ∀ r, x = Except.ok r → toolOk r.1) : toolOk (handle db x).1 := by
  cases x with
  | error e => exact Or.inr ⟨e, rfl⟩
  | ok r => exact h r rfl

theorem create_appointment_raw_ok (db : DB) (now : Nat) (a : CreateAppointmentArgs) :
    ∀ r, create_appointment_raw db now a = Except.ok r → toolOk r.1 := by
  intro r hr
  unfold create_appointment_raw at hr
  split at hr
  · cases hr; exact Or.inr ⟨_, rfl⟩
  · split at hr
    · cases hr
    · split at hr
      · cases hr; exact Or.inr ⟨_, rfl⟩
      · cases hr; exact Or.inl rfl

theorem toolOk_handleCommitted (x : Except (String × DB) (Result × DB))
    (h : ∀ r, x = Except.ok r → toolOk r.1) : toolOk (handleCommitted x).1 := by
  cases x with
  | error e => exact Or.inr ⟨e.1, rfl⟩
  | ok r => exact h r rfl

theorem update_appointment_raw_ok (db : DB) (now : Nat) (i : Nat)
    (a : UpdateAppointmentArgs) :
    ∀ r, update_appointment_raw db now i a = Except.ok r → toolOk r.1 := by
  intro r hr
  unfold update_appointment_raw at hr
  split at hr
  · cases hr; exact Or.inr ⟨_, rfl⟩
  · simp only [] at hr
    revert hr
    generalize hstep : (if truthyStr a.ora_inizio then _ else Except.ok none) = step
    intro hr
    cases step with
    | error e => cases hr
    | ok oraNuova =>
      simp only [Except.bind] at hr
      split at hr
      · split at hr
        · cases hr; exact Or.inl rfl
        · cases hr
      · cases hr; exact Or.inr ⟨_, rfl⟩

/-- C5: for every tool operation of both variants (create, list, update,
delete, search, complete), on every database state and input the operation
returns a dictionary with a `success` flag that is either `True` or
accompanied by an `error` string: the `try/except Exception` wrapper turns
every raised exception into such a dictionary, and no exception escapes. -/
theorem tools_return_error_flag (db : DB) (now : Nat) (today : String) :
    (∀ a, toolOk (create_appointment db now a).1) ∧
    (∀ a, toolOk (list_appointments db today a).1) ∧
    (∀ i a, toolOk (update_appointment db now i a).1) ∧
    (∀ i m, toolOk (delete_appointment db now i m).1) ∧
    (∀ q, toolOk (search_appointments db q).1) ∧
    (∀ a, toolOk (create_task db now a).1) ∧
    (∀ a, toolOk (list_tasks db today a).1) ∧
    (∀ i a, toolOk (update_task db now i a).1) ∧
    (∀ i, toolOk (complete_task db now i).1) ∧
    (∀ i m, toolOk (delete_task db now i m).1) ∧
    (∀ q, toolOk (search_tasks db q).1) := by
  refine ⟨?_, ?_, ?_, ?_, ?_, ?_, ?_, ?_, ?_, ?_, ?_⟩
  · exact fun a => toolOk_handle db _ (create_appointment_raw_ok db now a)
  · intro a; exact Or.inl rfl
  · exact fun i a => toolOk_handleCommitted _ (update_appointment_raw_ok db now i a)
  · intro i m
    unfold delete_appointment
    split
    · exact Or.inr ⟨_, rfl⟩
    · split
      · exact Or.inr ⟨_, rfl⟩
      · exact Or.inl rfl
  · intro q; exact Or.inl rfl
  · intro a; exact Or.inl rfl
  · intro a; exact Or.inl rfl
  · intro i a
    unfold update_task
    split
    · exact Or.inr ⟨_, rfl⟩
    · split
      · exact Or.inl rfl
      · exact Or.inr ⟨_, rfl⟩
  · intro i
    unfold complete_task
    split
    · exact Or.inr ⟨_, rfl⟩
    · exact Or.inl rfl
  · intro i m
    unfold delete_task
    split
    · exact Or.inr ⟨_, rfl⟩
    · exact Or.inl rfl
  · intro q; exact Or.inl rfl

/-! ## Claim C10 -/

/-- C10: `create_appointment` is atomic on error: whenever it returns
`success = False` — unknown client, conflict, or a raised exception — the
database is unchanged: no appointment row and no history record is added. -/
theorem create_appointment_error_unchanged (db : DB) (now : Nat)
    (a : CreateAppointmentArgs)
    (h : (create_appointment db now a).1.success = false) :
    (create_appointment db now a).2 = db := by
  rcases hcl : db.clienti.find? (fun c => c.id_cliente == a.id_cliente) with _ | cl
  · rw [create_appointment_run_noclient db now a hcl]
  · rcases hp : parseHHMM a.ora_inizio with _ | t
    · rw [create_appointment_run_badtime db now a cl hcl hp]
    · rcases hf : db.appuntamenti.find? (conflictRow a.data_appuntamento a.ora_inizio
          (toHHMM ((t + a.durata_minuti) % 1440))) with _ | cf
      · rw [create_appointment_run_ok db now a cl t hcl hp hf] at h
        simp [okRes] at h
      · rw [create_appointment_run_conflict db now a cl t cf hcl hp hf]

theorem create_appointment_error_unchanged_witness :
    (create_appointment dbEx 0
      { id_cliente := 1, data_appuntamento := "2026-01-01", ora_inizio := "10:30",
        titolo := "Altra visita" }).1.success = false ∧
    (create_appointment dbEx 0
      { id_cliente := 1, data_appuntamento := "2026-01-01", ora_inizio := "10:30",
        titolo := "Altra visita" }).2 = dbEx :=
  ⟨by decide, create_appointment_error_unchanged dbEx 0 _ (by decide)⟩

/-! ## Claim C2 -/

/-- C2: for all half-open intervals with `s < e` and `new_start < new_end`,
the second OR'd clause of `create_appointment`'s conflict condition is the
first clause again (bound to the same parameters), the disjunction of the
first and third clauses alone is equivalent to the whole condition, and the
whole condition is equivalent to the single classic interval-overlap
predicate `s1 < e2 AND e1 > s2`. -/
theorem conflict_clauses_equivalent (s e ns ne : String)
    (hse : sqlLt s e = true) (hnsne : sqlLt ns ne = true) :
    (overlapClause2 s e ns ne = overlapClause1 s e ns ne) ∧
    (conflictCond s e ns ne = (overlapClause1 s e ns ne || overlapClause3 s e ns ne)) ∧
    (conflictCond s e ns ne = classicOverlap s e ns ne) := by
  refine ⟨rfl, ?_, conflictCond_eq_classic hse⟩
  unfold conflictCond overlapClause2 overlapClause1
  cases hx : (sqlLt s ne && sqlLt ns e) <;> rfl

theorem conflict_clauses_equivalent_witness :
    sqlLt "09:00" "10:00" = true ∧ sqlLt "09:30" "10:30" = true ∧
    ((overlapClause2 "09:00" "10:00" "09:30" "10:30" =
        overlapClause1 "09:00" "10:00" "09:30" "10:30") ∧
     (conflictCond "09:00" "10:00" "09:30" "10:30" =
        (overlapClause1 "09:00" "10:00" "09:30" "10:30" ||
         overlapClause3 "09:00" "10:00" "09:30" "10:30")) ∧
     (conflictCond "09:00" "10:00" "09:30" "10:30" =
        classicOverlap "09:00" "10:00" "09:30" "10:30")) :=
  ⟨by decide, by decide,
   conflict_clauses_equivalent "09:00" "10:00" "09:30" "10:30" (by decide) (by decide)⟩

/-! ## Claim C6 -/

/-- C6: `delete_appointment` is a soft delete: on an existing appointment
(whose client row the `JOIN clienti` finds) it sets `stato` to
`'cancellato'` and refreshes `data_modifica`, appends one `'cancellazione'`
record to `storico_modifiche`, and keeps the row with every other field
(id, client, date, times, title, description, notes, urgency) unchanged;
no row is removed from `appuntamenti`. -/
theorem delete_appointment_soft (db : DB) (now : Nat) (idA : Nat)
    (motivo : Option String)
    (h : (db.appuntamenti.find? (fun r =>
        r.id_appuntamento == idA && (joinCliente db r).isSome)).isSome) :
    (delete_appointment db now idA motivo).1.success = true ∧
    (delete_appointment db now idA motivo).2.appuntamenti =
      db.appuntamenti.map (fun r =>
        if r.id_appuntamento == idA then
          { r with stato := "cancellato", data_modifica := now }
        else r) ∧
    (delete_appointment db now idA motivo).2.storico_modifiche =
      db.storico_modifiche ++
        [{ id_appuntamento := idA, tipo_modifica := "cancellazione",
           descrizione_modifica := descrizioneCancellazioneApp motivo,
           data_modifica := now }] ∧
    (delete_appointment db now idA motivo).2.appuntamenti.length =
      db.appuntamenti.length ∧
    (∀ r ∈ (delete_appointment db now idA motivo).2.appuntamenti,
      ∃ r0 ∈ db.appuntamenti, r.id_appuntamento = r0.id_appuntamento ∧
        r.id_cliente = r0.id_cliente ∧ r.data_appuntamento = r0.data_appuntamento ∧
        r.ora_inizio = r0.ora_inizio ∧ r.ora_fine = r0.ora_fine ∧
        r.titolo = r0.titolo ∧ r.descrizione = r0.descrizione ∧
        r.note = r0.note ∧ r.urgente = r0.urgente ∧
        (r0.id_appuntamento = idA → r.stato = "cancellato" ∧ r.data_modifica = now)) ∧
    (delete_appointment db now idA motivo).2.clienti = db.clienti ∧
    (delete_appointment db now idA motivo).2.next_id = db.next_id := by
  obtain ⟨app, happ⟩ := Option.isSome_iff_exists.mp h
  have hpred := List.find?_some happ
  rw [Bool.and_eq_true] at hpred
  obtain ⟨cl, hcl⟩ := Option.isSome_iff_exists.mp hpred.2
  unfold delete_appointment
  simp only [happ, hcl]
  refine ⟨rfl, trivial, trivial, by simp, ?_, trivial, trivial⟩
  intro r hr
  rw [List.mem_map] at hr
  obtain ⟨r0, hr0, hr0eq⟩ := hr
  subst hr0eq
  refine ⟨r0, hr0, ?_⟩
  by_cases h0 : (r0.id_appuntamento == idA) = true
  · have h0' : r0.id_appuntamento = idA := by simpa using h0
    simp [h0']
  · have h0' : ¬(r0.id_appuntamento = idA) := by simpa using h0
    simp [h0']

theorem delete_appointment_soft_witness :
    ((dbEx.appuntamenti.find? (fun r =>
        r.id_appuntamento == 1 && (joinCliente dbEx r).isSome)).isSome = true) ∧
    ((delete_appointment dbEx 9 1 (some "imprevisto")).1.success = true ∧
     (delete_appointment dbEx 9 1 (some "imprevisto")).2.appuntamenti =
       dbEx.appuntamenti.map (fun r =>
         if r.id_appuntamento == 1 then
           { r with stato := "cancellato", data_modifica := 9 }
         else r) ∧
     (delete_appointment dbEx 9 1 (some "imprevisto")).2.storico_modifiche =
       dbEx.storico_modifiche ++
         [{ id_appuntamento := 1, tipo_modifica := "cancellazione",
            descrizione_modifica := descrizioneCancellazioneApp (some "imprevisto"),
            data_modifica := 9 }] ∧
     (delete_appointment dbEx 9 1 (some "imprevisto")).2.appuntamenti.length =
       dbEx.appuntamenti.length ∧
     (∀ r ∈ (delete_appointment dbEx 9 1 (some "imprevisto")).2.appuntamenti,
       ∃ r0 ∈ dbEx.appuntamenti, r.id_appuntamento = r0.id_appuntamento ∧
         r.id_cliente = r0.id_cliente ∧ r.data_appuntamento = r0.data_appuntamento ∧
         r.ora_inizio = r0.ora_inizio ∧ r.ora_fine = r0.ora_fine ∧
         r.titolo = r0.titolo ∧ r.descrizione = r0.descrizione ∧
         r.note = r0.note ∧ r.urgente = r0.urgente ∧
         (r0.id_appuntamento = 1 → r.stato = "cancellato" ∧ r.data_modifica = 9)) ∧
     (delete_appointment dbEx 9 1 (some "imprevisto")).2.clienti = dbEx.clienti ∧
     (delete_appointment dbEx 9 1 (some "imprevisto")).2.next_id = dbEx.next_id) :=
  ⟨by decide, delete_appointment_soft dbEx 9 1 (some "imprevisto") (by decide)⟩

/-! ## Claim C7 -/

/-- C7 counterexample: on the same database row the two soft deletes do not
write the same change-history description — `delete_task` records
`'Task cancellato'` while `delete_appointment` records
`'Appuntamento cancellato'` — so the two state transitions differ beyond
the returned message text. -/
theorem delete_variants_descriptions_differ :
    (delete_task dbEx 5 1 none).2.storico_modifiche ≠
      (delete_appointment dbEx 5 1 none).2.storico_modifiche ∧
    (delete_task dbEx 5 1 none).1.success = true ∧
    (delete_appointment dbEx 5 1 none).1.success = true := by
  refine ⟨?_, by decide, by decide⟩
  decide

/-- C7 (amended): on every existing appointment row whose client the
appointment variant's `JOIN clienti` finds, `delete_task` and
`delete_appointment` perform the same transition of the `appuntamenti`
table — set `stato` to `'cancellato'` and refresh `data_modifica` — and
each appends exactly one `'cancellazione'` entry to `storico_modifiche`
whose description follows the same `motivo`-dependent template, but with
different entity words (`Task cancellato ...` against
`Appuntamento cancellato ...`); the returned message texts also differ. -/
theorem delete_variants_agree (db : DB) (now idA : Nat) (motivo : Option String)
    (h : (db.appuntamenti.find? (fun r =>
        r.id_appuntamento == idA && (joinCliente db r).isSome)).isSome) :
    (delete_task db now idA motivo).2.appuntamenti =
      (delete_appointment db now idA motivo).2.appuntamenti ∧
    (delete_task db now idA motivo).2.clienti =
      (delete_appointment db now idA motivo).2.clienti ∧
    (delete_task db now idA motivo).2.next_id =
      (delete_appointment db now idA motivo).2.next_id ∧
    (delete_task db now idA motivo).2.storico_modifiche =
      db.storico_modifiche ++
        [{ id_appuntamento := idA, tipo_modifica := "cancellazione",
           descrizione_modifica := descrizioneCancellazioneTask motivo,
           data_modifica := now }] ∧
    (delete_appointment db now idA motivo).2.storico_modifiche =
      db.storico_modifiche ++
        [{ id_appuntamento := idA, tipo_modifica := "cancellazione",
           descrizione_modifica := descrizioneCancellazioneApp motivo,
           data_modifica := now }] ∧
    (delete_task db now idA motivo).1.success = true ∧
    (delete_appointment db now idA motivo).1.success = true := by
  obtain ⟨app, happ⟩ := Option.isSome_iff_exists.mp h
  have hpred := List.find?_some happ
  rw [Bool.and_eq_true] at hpred
  obtain ⟨cl, hcl⟩ := Option.isSome_iff_exists.mp hpred.2
  have htk : (db.appuntamenti.find? (fun r => r.id_appuntamento == idA)).isSome := by
    rw [List.find?_isSome]
    exact ⟨app, List.mem_of_find?_eq_some happ, hpred.1⟩
  obtain ⟨tk, htkeq⟩ := Option.isSome_iff_exists.mp htk
  unfold delete_task delete_appointment
  simp only [happ, hcl, htkeq]
  refine ⟨?_, ?_, ?_, ?_, ?_, ?_, ?_⟩ <;> trivial

theorem delete_variants_agree_witness :
    ((dbEx.appuntamenti.find? (fun r =>
        r.id_appuntamento == 1 && (joinCliente dbEx r).isSome)).isSome = true) ∧
    ((delete_task dbEx 4 1 (some "rinvio")).2.appuntamenti =
       (delete_appointment dbEx 4 1 (some "rinvio")).2.appuntamenti ∧
     (delete_task dbEx 4 1 (some "rinvio")).2.clienti =
       (delete_appointment dbEx 4 1 (some "rinvio")).2.clienti ∧
     (delete_task dbEx 4 1 (some "rinvio")).2.next_id =
       (delete_appointment dbEx 4 1 (some "rinvio")).2.next_id ∧
     (delete_task dbEx 4 1 (some "rinvio")).2.storico_modifiche =
       dbEx.storico_modifiche ++
         [{ id_appuntamento := 1, tipo_modifica := "cancellazione",
            descrizione_modifica := descrizioneCancellazioneTask (some "rinvio"),
            data_modifica := 4 }] ∧
     (delete_appointment dbEx 4 1 (some "rinvio")).2.storico_modifiche =
       dbEx.storico_modifiche ++
         [{ id_appuntamento := 1, tipo_modifica := "cancellazione",
            descrizione_modifica := descrizioneCancellazioneApp (some "rinvio"),
            data_modifica := 4 }] ∧
     (delete_task dbEx 4 1 (some "rinvio")).1.success = true ∧
     (delete_appointment dbEx 4 1 (some "rinvio")).1.success = true) :=
  ⟨by decide, delete_variants_agree dbEx 4 1 (some "rinvio") (by decide)⟩

/-! ## Claim C3 -/

/-- C3: rows whose status is `'cancellato'` or `'non_presentato'`, and rows
on a different date, never cause `create_appointment` to reject: when every
same-date row that satisfies the time-conflict condition has one of the two
excluded statuses, creation succeeds and the new row is inserted. -/
theorem create_appointment_ignores_excluded (db : DB) (now : Nat)
    (a : CreateAppointmentArgs) (cl : Cliente) (t : Nat)
    (hcl : db.clienti.find? (fun c => c.id_cliente == a.id_cliente) = some cl)
    (hp : parseHHMM a.ora_inizio = some t)
    (hrows : ∀ r ∈ db.appuntamenti, r.data_appuntamento = a.data_appuntamento →
      conflictTimes a.ora_inizio (toHHMM ((t + a.durata_minuti) % 1440)) r = true →
      r.stato = "cancellato" ∨ r.stato = "non_presentato") :
    (create_appointment db now a).1.success = true ∧
    (create_appointment db now a).2.appuntamenti =
      db.appuntamenti ++
        [createdRow db now a (toHHMM ((t + a.durata_minuti) % 1440))] := by
  have hf : db.appuntamenti.find? (conflictRow a.data_appuntamento a.ora_inizio
      (toHHMM ((t + a.durata_minuti) % 1440))) = none := by
    rw [List.find?_eq_none]
    intro r hr hcontra
    unfold conflictRow at hcontra
    rw [Bool.and_eq_true, Bool.and_eq_true, beq_iff_eq] at hcontra
    obtain ⟨⟨hdate, hact⟩, htimes⟩ := hcontra
    rcases hrows r hr hdate htimes with hst | hst <;>
      simp [activeStato, hst] at hact
  rw [create_appointment_run_ok db now a cl t hcl hp hf]
  exact ⟨rfl, rfl⟩

theorem create_appointment_ignores_excluded_witness :
    (dbC3.clienti.find? (fun c => c.id_cliente == 1) = some clienteEx) ∧
    (parseHHMM "10:30" = some 630) ∧
    (∀ r ∈ dbC3.appuntamenti, r.data_appuntamento = "2026-01-01" →
      conflictTimes "10:30" (toHHMM ((630 + 30) % 1440)) r = true →
      r.stato = "cancellato" ∨ r.stato = "non_presentato") ∧
    ((create_appointment dbC3 0
        { id_cliente := 1, data_appuntamento := "2026-01-01", ora_inizio := "10:30",
          titolo := "Nuovo" }).1.success = true ∧
     (create_appointment dbC3 0
        { id_cliente := 1, data_appuntamento := "2026-01-01", ora_inizio := "10:30",
          titolo := "Nuovo" }).2.appuntamenti =
       dbC3.appuntamenti ++
         [createdRow dbC3 0
           { id_cliente := 1, data_appuntamento := "2026-01-01", ora_inizio := "10:30",
             titolo := "Nuovo" } (toHHMM ((630 + 30) % 1440))]) :=
  ⟨by decide, by decide, by decide,
   create_appointment_ignores_excluded dbC3 0
     { id_cliente := 1, data_appuntamento := "2026-01-01", ora_inizio := "10:30",
       titolo := "Nuovo" } clienteEx 630 (by decide) (by decide) (by decide)⟩

/-! ## Claim C1 -/

/-- Pointwise: for rows carrying genuine intervals and a genuine new
interval, the query's condition coincides with the spec's condition. -/
theorem conflictRow_iff_spec {data_app ns ne : String} {r : Appuntamento}
    (hne : sqlLt ns ne = true)
    (hint : r.data_appuntamento = data_app → activeStato r.stato = true →
      rowInterval r = true) :
    conflictRow data_app ns ne r = true ↔ specRowConflict data_app ns ne r := by
  unfold conflictRow conflictTimes specRowConflict
  rcases hsi : r.ora_inizio with _ | s <;> rcases hse : r.ora_fine with _ | e <;>
    simp only [hsi, hse, Bool.and_eq_true, beq_iff_eq]
  · constructor
    · rintro ⟨-, h⟩; cases h
    · rintro ⟨-, -, s', e', h, -⟩; cases h
  · constructor
    · rintro ⟨-, h⟩; cases h
    · rintro ⟨-, -, s', e', h, -⟩; cases h
  · constructor
    · rintro ⟨-, h⟩; cases h
    · rintro ⟨-, -, s', e', -, h, -⟩; cases h
  · constructor
    · rintro ⟨⟨hdate, hact⟩, hco⟩
      have hv : sqlLt s e = true := by
        have h2 := hint hdate hact
        simpa [rowInterval, hsi, hse] using h2
      exact ⟨hdate, hact, s, e, rfl, rfl, (conflictCond_iff_spec hv hne).mp hco⟩
    · rintro ⟨hdate, hact, s', e', hs', he', hdisj⟩
      cases hs'; cases he'
      have hv : sqlLt s e = true := by
        have h2 := hint hdate hact
        simpa [rowInterval, hsi, hse] using h2
      exact ⟨⟨hdate, hact⟩, (conflictCond_iff_spec hv hne).mpr hdisj⟩

/-- C1: for a call to `create_appointment` with an existing client and a
valid, canonically written start time whose interval stays within the day,
against a table whose relevant rows carry genuine half-open intervals: the
call is rejected — `success = False` with a conflict error and no change to
the database — exactly when some row satisfies the spec's conflict
condition (general overlap, or the new interval contained in an existing
one); and when no such row exists the appointment is inserted. -/
theorem create_appointment_conflict_iff (db : DB) (now : Nat)
    (a : CreateAppointmentArgs) (cl : Cliente) (t : Nat)
    (hcl : db.clienti.find? (fun c => c.id_cliente == a.id_cliente) = some cl)
    (ht : a.ora_inizio = toHHMM t) (ht14 : t < 1440) (hd : 0 < a.durata_minuti)
    (hwrap : t + a.durata_minuti < 1440)
    (hrows : ∀ r ∈ db.appuntamenti, r.data_appuntamento = a.data_appuntamento →
      activeStato r.stato = true → rowInterval r = true) :
    (((create_appointment db now a).1.success = false ∧
      (∃ tt, (create_appointment db now a).1.error =
        some ("Conflitto con appuntamento esistente: " ++ tt)) ∧
      (create_appointment db now a).2 = db) ↔
     (∃ r ∈ db.appuntamenti, specRowConflict a.data_appuntamento a.ora_inizio
        (toHHMM ((t + a.durata_minuti) % 1440)) r)) ∧
    ((¬ ∃ r ∈ db.appuntamenti, specRowConflict a.data_appuntamento a.ora_inizio
        (toHHMM ((t + a.durata_minuti) % 1440)) r) →
      (create_appointment db now a).1.success = true ∧
      (create_appointment db now a).2.appuntamenti =
        db.appuntamenti ++
          [createdRow db now a (toHHMM ((t + a.durata_minuti) % 1440))]) := by
  have hp : parseHHMM a.ora_inizio = some t := by
    rw [ht]; exact parse_toHHMM ht14
  have hmod : (t + a.durata_minuti) % 1440 = t + a.durata_minuti :=
    Nat.mod_eq_of_lt hwrap
  have hne : sqlLt a.ora_inizio (toHHMM ((t + a.durata_minuti) % 1440)) = true := by
    rw [ht, hmod]
    exact toHHMM_sqlLt hwrap (by omega)
  rcases hf : db.appuntamenti.find? (conflictRow a.data_appuntamento a.ora_inizio
      (toHHMM ((t + a.durata_minuti) % 1440))) with _ | cf
  · have hnone : ¬ ∃ r ∈ db.appuntamenti, specRowConflict a.data_appuntamento
        a.ora_inizio (toHHMM ((t + a.durata_minuti) % 1440)) r := by
      rintro ⟨r, hr, hspec⟩
      have := (conflictRow_iff_spec hne (fun hd' ha' => hrows r hr hd' ha')).mpr hspec
      exact absurd this (List.find?_eq_none.mp hf r hr)
    rw [create_appointment_run_ok db now a cl t hcl hp hf]
    constructor
    · constructor
      · rintro ⟨hs, -⟩; cases hs
      · intro hex; exact absurd hex hnone
    · intro _; exact ⟨rfl, rfl⟩
  · have hcf_mem := List.mem_of_find?_eq_some hf
    have hcf_pred := List.find?_some hf
    have hspec := (conflictRow_iff_spec hne
      (fun hd' ha' => hrows cf hcf_mem hd' ha')).mp hcf_pred
    rw [create_appointment_run_conflict db now a cl t cf hcl hp hf]
    constructor
    · constructor
      · intro _; exact ⟨cf, hcf_mem, hspec⟩
      · intro _; exact ⟨rfl, ⟨cf.titolo, rfl⟩, rfl⟩
    · intro hnot; exact absurd ⟨cf, hcf_mem, hspec⟩ hnot

theorem create_appointment_conflict_iff_witness :
    (dbEx.clienti.find? (fun c => c.id_cliente == argsC1.id_cliente) =
      some clienteEx) ∧
    (argsC1.ora_inizio = toHHMM 630) ∧ (630 < 1440) ∧ (0 < argsC1.durata_minuti) ∧
    (630 + argsC1.durata_minuti < 1440) ∧
    (∀ r ∈ dbEx.appuntamenti, r.data_appuntamento = argsC1.data_appuntamento →
      activeStato r.stato = true → rowInterval r = true) ∧
    ((((create_appointment dbEx 0 argsC1).1.success = false ∧
       (∃ tt, (create_appointment dbEx 0 argsC1).1.error =
         some ("Conflitto con appuntamento esistente: " ++ tt)) ∧
       (create_appointment dbEx 0 argsC1).2 = dbEx) ↔
      (∃ r ∈ dbEx.appuntamenti, specRowConflict argsC1.data_appuntamento
         argsC1.ora_inizio (toHHMM ((630 + argsC1.durata_minuti) % 1440)) r)) ∧
     ((¬ ∃ r ∈ dbEx.appuntamenti, specRowConflict argsC1.data_appuntamento
         argsC1.ora_inizio (toHHMM ((630 + argsC1.durata_minuti) % 1440)) r) →
       (create_appointment dbEx 0 argsC1).1.success = true ∧
       (create_appointment dbEx 0 argsC1).2.appuntamenti =
         dbEx.appuntamenti ++
           [createdRow dbEx 0 argsC1 (toHHMM ((630 + argsC1.durata_minuti) % 1440))])) :=
  ⟨by decide, by decide, by decide, by decide, by decide, by decide,
   create_appointment_conflict_iff dbEx 0 argsC1 clienteEx 630 (by decide) (by decide)
     (by decide) (by decide) (by decide) (by decide)⟩

/-! ## Claim C8 -/

/-- C8 counterexample: a successful `create_appointment` starting at 06:00
with a 1500-minute duration crosses midnight (360 + 1500 ≥ 1440), yet the
stored `ora_fine` is `07:00`, which is not lexicographically smaller than
the stored `ora_inizio` `06:00` — the claimed consequence fails for
durations of 24 hours or more. -/
theorem create_appointment_midnight_not_smaller :
    (create_appointment dbC8 0 argsC8).1.success = true ∧
    1440 ≤ 360 + argsC8.durata_minuti ∧
    parseHHMM argsC8.ora_inizio = some 360 ∧
    (create_appointment dbC8 0 argsC8).2.appuntamenti =
      [createdRow dbC8 0 argsC8 "07:00"] ∧
    (createdRow dbC8 0 argsC8 "07:00").ora_fine = some "07:00" ∧
    (createdRow dbC8 0 argsC8 "07:00").ora_inizio = some "06:00" ∧
    sqlLt "07:00" "06:00" = false ∧ sqlLt "06:00" "07:00" = true := by
  decide

/-- C8 (amended): for every successful `create_appointment`, the stored
`ora_fine` is `ora_inizio` plus `durata_minuti` reduced modulo 24 hours and
rendered as `HH:MM`; and whenever the duration is below 24 hours and the
sum crosses midnight, the stored `ora_fine` is lexicographically smaller
than the stored `ora_inizio`, so the stored pair is not a half-open
interval with start before end. -/
theorem create_appointment_wraps_midnight (db : DB) (now : Nat)
    (a : CreateAppointmentArgs) (cl : Cliente) (t : Nat)
    (hcl : db.clienti.find? (fun c => c.id_cliente == a.id_cliente) = some cl)
    (ht : a.ora_inizio = toHHMM t) (ht14 : t < 1440)
    (hsucc : (create_appointment db now a).1.success = true) :
    (create_appointment db now a).2.appuntamenti =
      db.appuntamenti ++
        [createdRow db now a (toHHMM ((t + a.durata_minuti) % 1440))] ∧
    (createdRow db now a (toHHMM ((t + a.durata_minuti) % 1440))).ora_fine =
      some (toHHMM ((t + a.durata_minuti) % 1440)) ∧
    (createdRow db now a (toHHMM ((t + a.durata_minuti) % 1440))).ora_inizio =
      some a.ora_inizio ∧
    (a.durata_minuti < 1440 → 1440 ≤ t + a.durata_minuti →
      sqlLt (toHHMM ((t + a.durata_minuti) % 1440)) a.ora_inizio = true ∧
      sqlLt a.ora_inizio (toHHMM ((t + a.durata_minuti) % 1440)) = false) := by
  have hp : parseHHMM a.ora_inizio = some t := by
    rw [ht]; exact parse_toHHMM ht14
  have hlast : a.durata_minuti < 1440 → 1440 ≤ t + a.durata_minuti →
      sqlLt (toHHMM ((t + a.durata_minuti) % 1440)) a.ora_inizio = true ∧
      sqlLt a.ora_inizio (toHHMM ((t + a.durata_minuti) % 1440)) = false := by
    intro hdur hcross
    have hend : (t + a.durata_minuti) % 1440 = t + a.durata_minuti - 1440 := by
      omega
    have hltt : (t + a.durata_minuti) % 1440 < t := by omega
    have h1 : sqlLt (toHHMM ((t + a.durata_minuti) % 1440)) a.ora_inizio = true := by
      rw [ht]; exact toHHMM_sqlLt ht14 hltt
    exact ⟨h1, sqlLt_asymm h1⟩
  rcases hf : db.appuntamenti.find? (conflictRow a.data_appuntamento a.ora_inizio
      (toHHMM ((t + a.durata_minuti) % 1440))) with _ | cf
  · rw [create_appointment_run_ok db now a cl t hcl hp hf]
    exact ⟨rfl, rfl, rfl, hlast⟩
  · rw [create_appointment_run_conflict db now a cl t cf hcl hp hf] at hsucc
    cases hsucc

theorem create_appointment_wraps_midnight_witness :
    (dbC8.clienti.find? (fun c => c.id_cliente == argsC8w.id_cliente) =
      some clienteEx) ∧
    (argsC8w.ora_inizio = toHHMM 1380) ∧ (1380 < 1440) ∧
    ((create_appointment dbC8 0 argsC8w).1.success = true) ∧
    ((create_appointment dbC8 0 argsC8w).2.appuntamenti =
      dbC8.appuntamenti ++
        [createdRow dbC8 0 argsC8w (toHHMM ((1380 + argsC8w.durata_minuti) % 1440))] ∧
     (createdRow dbC8 0 argsC8w
        (toHHMM ((1380 + argsC8w.durata_minuti) % 1440))).ora_fine =
       some (toHHMM ((1380 + argsC8w.durata_minuti) % 1440)) ∧
     (createdRow dbC8 0 argsC8w
        (toHHMM ((1380 + argsC8w.durata_minuti) % 1440))).ora_inizio =
       some argsC8w.ora_inizio ∧
     (argsC8w.durata_minuti < 1440 → 1440 ≤ 1380 + argsC8w.durata_minuti →
       sqlLt (toHHMM ((1380 + argsC8w.durata_minuti) % 1440)) argsC8w.ora_inizio =
         true ∧
       sqlLt argsC8w.ora_inizio (toHHMM ((1380 + argsC8w.durata_minuti) % 1440)) =
         false)) :=
  ⟨by decide, by decide, by decide, by decide,
   create_appointment_wraps_midnight dbC8 0 argsC8w clienteEx 1380 (by decide)
     (by decide) (by decide) (by decide)⟩

/-! ## Branch equations for `update_appointment` -/

theorem update_appointment_run_notfound (db : DB) (now : Nat) (i : Nat)
    (a : UpdateAppointmentArgs)
    (hfind : db.appuntamenti.find? (fun r => r.id_appuntamento == i) = none) :
    update_appointment db now i a = (errRes "Appuntamento non trovato", db) := by
  unfold update_appointment update_appointment_raw handleCommitted
  simp only [hfind]

theorem update_appointment_run_ora (db : DB) (now : Nat) (i : Nat)
    (a : UpdateAppointmentArgs) (app : Appuntamento) (s f : String)
    (hfind : db.appuntamenti.find? (fun r => r.id_appuntamento == i) = some app)
    (hs : a.ora_inizio = some s) (hst : (s != "") = true)
    (hric : ricalcola_ora_fine app s a.durata_minuti = Except.ok f) :
    (update_appointment db now i a).2 = updatedDB db now i a (some (s, f)) ∧
    ((update_appointment db now i a).1.success = true ↔
      (rifetchRow (updatedDB db now i a (some (s, f))) i).isSome = true) := by
  unfold update_appointment update_appointment_raw handleCommitted
  simp only [hfind, hs, truthyStr, hst, if_pos, hric, Except.bind,
    anyAppUpdate, Option.isSome_some, Bool.or_true, Bool.true_or, Bool.or_self,
    if_true]
  rcases hf : rifetchRow (updatedDB db now i a (some (s, f))) i with _ | row
  · simp only [hf]
    exact ⟨trivial, Iff.rfl⟩
  · simp only [hf]
    exact ⟨trivial, by simp⟩

theorem update_appointment_run_ora_err (db : DB) (now : Nat) (i : Nat)
    (a : UpdateAppointmentArgs) (app : Appuntamento) (s e : String)
    (hfind : db.appuntamenti.find? (fun r => r.id_appuntamento == i) = some app)
    (hs : a.ora_inizio = some s) (hst : (s != "") = true)
    (hric : ricalcola_ora_fine app s a.durata_minuti = Except.error e) :
    update_appointment db now i a = (errRes e, db) := by
  unfold update_appointment update_appointment_raw handleCommitted
  simp only [hfind, hs, truthyStr, hst, if_pos, hric, Except.bind]

theorem update_appointment_run_noora (db : DB) (now : Nat) (i : Nat)
    (a : UpdateAppointmentArgs) (app : Appuntamento)
    (hfind : db.appuntamenti.find? (fun r => r.id_appuntamento == i) = some app)
    (hno : truthyStr a.ora_inizio = false)
    (hany : anyAppUpdate a none = true) :
    (update_appointment db now i a).2 = updatedDB db now i a none ∧
    ((update_appointment db now i a).1.success = true ↔
      (rifetchRow (updatedDB db now i a none) i).isSome = true) := by
  unfold update_appointment update_appointment_raw handleCommitted
  simp only [hfind, hno, if_false, Bool.false_eq_true, Except.bind, hany, if_true]
  rcases hf : rifetchRow (updatedDB db now i a none) i with _ | row
  · simp only [hf]
    exact ⟨trivial, Iff.rfl⟩
  · simp only [hf]
    exact ⟨trivial, by simp⟩

theorem update_appointment_run_noora_none (db : DB) (now : Nat) (i : Nat)
    (a : UpdateAppointmentArgs) (app : Appuntamento)
    (hfind : db.appuntamenti.find? (fun r => r.id_appuntamento == i) = some app)
    (hno : truthyStr a.ora_inizio = false)
    (hany : anyAppUpdate a none = false) :
    update_appointment db now i a = (errRes "Nessuna modifica specificata", db) := by
  unfold update_appointment update_appointment_raw handleCommitted
  simp only [hfind, hno, if_false, Bool.false_eq_true, Except.bind, hany]

/-- The dynamically built `UPDATE` clause never touches the row id. -/
theorem applyUpdates_id (r : Appuntamento) (a : UpdateAppointmentArgs)
    (o : Option (String × String)) (now : Nat) :
    (applyUpdates r a o now).id_appuntamento = r.id_appuntamento := by
  simp only [applyUpdates]
  repeat' split
  all_goals rfl

/-- The dynamically built `UPDATE` clause never touches `id_cliente`. -/
theorem applyUpdates_id_cliente (r : Appuntamento) (a : UpdateAppointmentArgs)
    (o : Option (String × String)) (now : Nat) :
    (applyUpdates r a o now).id_cliente = r.id_cliente := by
  simp only [applyUpdates]
  repeat' split
  all_goals rfl

/-- The committed update leaves `clienti` unchanged, so the re-fetch `JOIN`
resolves against the same client table. -/
theorem joinCliente_updatedDB (db : DB) (now : Nat) (i : Nat)
    (a : UpdateAppointmentArgs) (o : Option (String × String))
    (r : Appuntamento) :
    joinCliente (updatedDB db now i a o) r = joinCliente db r := rfl

theorem joinCliente_applyUpdates (db : DB) (r : Appuntamento)
    (a : UpdateAppointmentArgs) (o : Option (String × String)) (now : Nat) :
    joinCliente db (applyUpdates r a o now) = joinCliente db r := by
  unfold joinCliente
  rw [applyUpdates_id_cliente]

/-- Whether the post-commit re-fetch finds a row is decided already on the
pre-update table: the `UPDATE` changes neither the row ids, nor
`id_cliente`, nor the `clienti` table. -/
theorem rifetch_updatedDB (db : DB) (now : Nat) (i : Nat)
    (a : UpdateAppointmentArgs) (o : Option (String × String)) :
    (rifetchRow (updatedDB db now i a o) i).isSome =
      (db.appuntamenti.find? (fun r =>
        r.id_appuntamento == i && (joinCliente db r).isSome)).isSome := by
  rw [Bool.eq_iff_iff]
  unfold rifetchRow
  simp only [joinCliente_updatedDB]
  rw [show (updatedDB db now i a o).appuntamenti = db.appuntamenti.map
      (fun r => if r.id_appuntamento == i then applyUpdates r a o now else r) from rfl]
  rw [List.find?_isSome, List.find?_isSome]
  constructor
  · rintro ⟨y, hy, hp⟩
    rw [List.mem_map] at hy
    obtain ⟨x, hx, rfl⟩ := hy
    refine ⟨x, hx, ?_⟩
    by_cases hid : (x.id_appuntamento == i) = true
    · rw [if_pos hid] at hp
      rwa [applyUpdates_id, joinCliente_applyUpdates] at hp
    · rwa [if_neg hid] at hp
  · rintro ⟨x, hx, hp⟩
    refine ⟨_, List.mem_map_of_mem _ hx, ?_⟩
    by_cases hid : (x.id_appuntamento == i) = true
    · rw [if_pos hid, applyUpdates_id, joinCliente_applyUpdates]
      exact hp
    · rwa [if_neg hid]

/-- The post-commit re-fetch error path is live: updating the title of a
row whose `id_cliente` is `NULL` commits the new title and appends the
history record, yet reports an error, because the `JOIN clienti` re-fetch
finds no row and `dict(None)` raises. -/
theorem update_appointment_dangling_client :
    (update_appointment dbNoCl 9 4 { titolo := some "Nuovo" }).1.success = false ∧
    (update_appointment dbNoCl 9 4 { titolo := some "Nuovo" }).1.error =
      some noneFetchErr ∧
    (update_appointment dbNoCl 9 4 { titolo := some "Nuovo" }).2.appuntamenti =
      [{ apptNoCl with titolo := "Nuovo", data_modifica := 9 }] ∧
    (update_appointment dbNoCl 9 4 { titolo := some "Nuovo" }).2.storico_modifiche =
      [{ id_appuntamento := 4, tipo_modifica := "modifica",
         descrizione_modifica := "Titolo modificato", data_modifica := 9 }] := by
  refine ⟨?_, ?_, ?_, ?_⟩ <;> decide

/-! ## Claim C9 -/

/-- Without a truthy `durata_minuti` the recomputation preserves the stored
row's duration (modulo 24 hours). -/
theorem ricalcola_keeps_duration (app : Appuntamento) (s : String)
    (durata : Option Int) (t sN eN : Nat) (vi vf : String)
    (hnd : truthyInt durata = false)
    (hvi : app.ora_inizio = some vi) (hpvi : parseHHMM vi = some sN)
    (hvf : app.ora_fine = some vf) (hpvf : parseHHMM vf = some eN)
    (hps : parseHHMM s = some t) :
    ricalcola_ora_fine app s durata =
      Except.ok (toHHMM ((((t : Int) + ((eN : Int) - (sN : Int))) % 1440).toNat)) := by
  cases durata with
  | none =>
    simp only [ricalcola_ora_fine, mantieni_durata, hvf, hpvf, hvi, hpvi, hps]
  | some d =>
    have hd0 : (d != 0) = false := by simpa [truthyInt] using hnd
    simp only [ricalcola_ora_fine, hd0, Bool.false_eq_true, if_false,
      mantieni_durata, hvf, hpvf, hvi, hpvi, hps]

/-- With a truthy `durata_minuti` the recomputation uses the new duration
(modulo 24 hours). -/
theorem ricalcola_with_duration (app : Appuntamento) (s : String) (d : Int)
    (t : Nat) (hd : d ≠ 0) (hps : parseHHMM s = some t) :
    ricalcola_ora_fine app s (some d) =
      Except.ok (toHHMM (((t : Int) + d) % 1440).toNat) := by
  have hd' : (d != 0) = true := by simpa using hd
  simp only [ricalcola_ora_fine, hd', if_true, hps]

/-- The dynamically built `UPDATE` clause stores exactly the new
`ora_inizio` and the recomputed `ora_fine`. -/
theorem applyUpdates_ora (r : Appuntamento) (a : UpdateAppointmentArgs)
    (s f : String) (now : Nat) :
    (applyUpdates r a (some (s, f)) now).ora_inizio = some s ∧
    (applyUpdates r a (some (s, f)) now).ora_fine = some f := by
  constructor <;>
    (simp only [applyUpdates]
     repeat' split
     all_goals rfl)

/-- C9 counterexample: `update_appointment` tests `durata_minuti` for Python
truthiness, so supplying `durata_minuti = 0` together with a new
`ora_inizio` is ignored: on a 60-minute appointment moved to start at
12:00, the stored `ora_fine` becomes `13:00` (the old duration), not
`12:00` (start plus the supplied zero duration) as the claim requires. -/
theorem update_appointment_zero_duration_ignored :
    (update_appointment dbC9 3 1
      { ora_inizio := some "12:00", durata_minuti := some 0 }).1.success = true ∧
    (∃ row, (update_appointment dbC9 3 1
        { ora_inizio := some "12:00", durata_minuti := some 0 }).2.appuntamenti =
          [row] ∧
      row.ora_inizio = some "12:00" ∧ row.ora_fine = some "13:00" ∧
      row.ora_fine ≠ some "12:00") := by
  refine ⟨by decide, ⟨_, rfl, ?_, ?_, ?_⟩⟩ <;> decide

/-- C9 (amended): for every existing appointment with stored, parsable
`ora_inizio` and `ora_fine`, updating with a new valid `ora_inizio` and
without a truthy `durata_minuti` (absent or zero) preserves the duration:
the stored `ora_fine` becomes the new start plus the old duration, modulo
24 hours; with a truthy (nonzero) `durata_minuti` the stored `ora_fine`
becomes the new start plus that duration, modulo 24 hours. -/
theorem update_appointment_duration (db : DB) (now : Nat) (i : Nat)
    (a : UpdateAppointmentArgs) (app : Appuntamento) (s vi vf : String)
    (t sN eN : Nat)
    (hfind : db.appuntamenti.find? (fun r => r.id_appuntamento == i) = some app)
    (hs : a.ora_inizio = some s) (hps : parseHHMM s = some t)
    (hvi : app.ora_inizio = some vi) (hpvi : parseHHMM vi = some sN)
    (hvf : app.ora_fine = some vf) (hpvf : parseHHMM vf = some eN) :
    (truthyInt a.durata_minuti = false →
      (update_appointment db now i a).2.appuntamenti =
        db.appuntamenti.map (fun r =>
          if r.id_appuntamento == i then
            applyUpdates r a
              (some (s, toHHMM ((((t : Int) + ((eN : Int) - (sN : Int))) % 1440).toNat)))
              now
          else r) ∧
      (∀ r0, (applyUpdates r0 a
          (some (s, toHHMM ((((t : Int) + ((eN : Int) - (sN : Int))) % 1440).toNat)))
          now).ora_inizio = some s ∧
        (applyUpdates r0 a
          (some (s, toHHMM ((((t : Int) + ((eN : Int) - (sN : Int))) % 1440).toNat)))
          now).ora_fine =
          some (toHHMM ((((t : Int) + ((eN : Int) - (sN : Int))) % 1440).toNat))) ∧
      parseHHMM (toHHMM ((((t : Int) + ((eN : Int) - (sN : Int))) % 1440).toNat)) =
        some ((((t : Int) + ((eN : Int) - (sN : Int))) % 1440).toNat)) ∧
    (∀ d : Int, a.durata_minuti = some d → d ≠ 0 →
      (update_appointment db now i a).2.appuntamenti =
        db.appuntamenti.map (fun r =>
          if r.id_appuntamento == i then
            applyUpdates r a (some (s, toHHMM (((t : Int) + d) % 1440).toNat)) now
          else r) ∧
      (∀ r0, (applyUpdates r0 a (some (s, toHHMM (((t : Int) + d) % 1440).toNat))
          now).ora_inizio = some s ∧
        (applyUpdates r0 a (some (s, toHHMM (((t : Int) + d) % 1440).toNat))
          now).ora_fine = some (toHHMM (((t : Int) + d) % 1440).toNat))) := by
  have hst : (s != "") = true := by
    rcases hs0 : s.data with _ | _
    · exfalso
      have : s = "" := String.ext (by simpa using hs0)
      rw [this] at hps
      cases hps
    · have : s ≠ "" := by
        intro he
        rw [he] at hs0
        cases hs0
      simpa using this
  constructor
  · intro hnd
    have hric := ricalcola_keeps_duration app s a.durata_minuti t sN eN vi vf
      hnd hvi hpvi hvf hpvf hps
    rw [(update_appointment_run_ora db now i a app s _ hfind hs hst hric).1]
    refine ⟨rfl, fun r0 => applyUpdates_ora r0 a s _ now, ?_⟩
    have hb : (((t : Int) + ((eN : Int) - (sN : Int))) % 1440).toNat < 1440 := by
      omega
    exact parse_toHHMM hb
  · intro d hd hd0
    have hric := ricalcola_with_duration app s d t hd0 hps
    rw [(update_appointment_run_ora db now i a app s _ hfind hs hst
      (by rw [hd]; exact hric)).1]
    exact ⟨rfl, fun r0 => applyUpdates_ora r0 a s _ now⟩

theorem update_appointment_duration_witness :
    (dbC9.appuntamenti.find? (fun r => r.id_appuntamento == 1) = some apptC9) ∧
    (argsC9.ora_inizio = some "12:00") ∧ (parseHHMM "12:00" = some 720) ∧
    (apptC9.ora_inizio = some "10:00") ∧ (parseHHMM "10:00" = some 600) ∧
    (apptC9.ora_fine = some "11:00") ∧ (parseHHMM "11:00" = some 660) ∧
    ((truthyInt argsC9.durata_minuti = false →
      (update_appointment dbC9 3 1 argsC9).2.appuntamenti =
        dbC9.appuntamenti.map (fun r =>
          if r.id_appuntamento == 1 then
            applyUpdates r argsC9
              (some ("12:00",
                toHHMM ((((720 : Nat) : Int) + (((660 : Nat) : Int) - ((600 : Nat) : Int))) % 1440).toNat))
              3
          else r) ∧
      (∀ r0, (applyUpdates r0 argsC9
          (some ("12:00",
            toHHMM ((((720 : Nat) : Int) + (((660 : Nat) : Int) - ((600 : Nat) : Int))) % 1440).toNat))
          3).ora_inizio = some "12:00" ∧
        (applyUpdates r0 argsC9
          (some ("12:00",
            toHHMM ((((720 : Nat) : Int) + (((660 : Nat) : Int) - ((600 : Nat) : Int))) % 1440).toNat))
          3).ora_fine =
          some (toHHMM ((((720 : Nat) : Int) + (((660 : Nat) : Int) - ((600 : Nat) : Int))) % 1440).toNat)) ∧
      parseHHMM (toHHMM ((((720 : Nat) : Int) + (((660 : Nat) : Int) - ((600 : Nat) : Int))) % 1440).toNat) =
        some (((((720 : Nat) : Int) + (((660 : Nat) : Int) - ((600 : Nat) : Int))) % 1440).toNat)) ∧
     (∀ d : Int, argsC9.durata_minuti = some d → d ≠ 0 →
      (update_appointment dbC9 3 1 argsC9).2.appuntamenti =
        dbC9.appuntamenti.map (fun r =>
          if r.id_appuntamento == 1 then
            applyUpdates r argsC9
              (some ("12:00", toHHMM ((((720 : Nat) : Int) + d) % 1440).toNat)) 3
          else r) ∧
      (∀ r0, (applyUpdates r0 argsC9
          (some ("12:00", toHHMM ((((720 : Nat) : Int) + d) % 1440).toNat))
          3).ora_inizio = some "12:00" ∧
        (applyUpdates r0 argsC9
          (some ("12:00", toHHMM ((((720 : Nat) : Int) + d) % 1440).toNat))
          3).ora_fine = some (toHHMM ((((720 : Nat) : Int) + d) % 1440).toNat)))) :=
  ⟨by decide, rfl, by decide, rfl, by decide, rfl, by decide,
   update_appointment_duration dbC9 3 1 argsC9 apptC9 "12:00" "10:00" "11:00"
     720 600 660 (by decide) rfl (by decide) rfl (by decide) rfl (by decide)⟩

/-! ## Claim C4 -/

/-- C4 counterexample: the appointment exists and a field to change — the
duration — is supplied, yet `update_appointment` returns an error:
`durata_minuti` only takes effect together with `ora_inizio`, so a
duration-only update leaves the `UPDATE` clause empty and fails with
`Nessuna modifica specificata`, against the claimed equivalence. -/
theorem update_appointment_duration_only_errors :
    ((dbEx.appuntamenti.find? (fun r => r.id_appuntamento == 1)).isSome = true) ∧
    (update_appointment dbEx 7 1 { durata_minuti := some 60 }).1.success = false ∧
    (update_appointment dbEx 7 1 { durata_minuti := some 60 }).1.error =
      some "Nessuna modifica specificata" ∧
    (update_appointment dbEx 7 1 { durata_minuti := some 60 }).2 = dbEx := by
  refine ⟨by decide, by decide, by decide, by decide⟩

/-- C4 (amended): `update_appointment` performs no conflict test.  Provided
any supplied `ora_inizio` is a valid time and the stored times needed to
recompute the end are present and parsable, the call succeeds if and only
if the appointment id exists, at least one effective field is supplied —
a truthy `data_appuntamento`, `ora_inizio`, `titolo` or `stato`, or a
non-`None` `descrizione`, `urgente` or `note`; `durata_minuti` alone
supplies nothing — and the post-commit re-fetch joins the row to an
existing client (a `NULL` or dangling `id_cliente` makes
`dict(fetchone())` raise after the commit, so an error is reported even
though the update is already stored).  In particular no other
appointment's times are consulted: an update that makes the interval
overlap a confirmed same-date appointment still succeeds. -/
theorem update_appointment_success_iff (db : DB) (now : Nat) (i : Nat)
    (a : UpdateAppointmentArgs)
    (hok : ∀ app, db.appuntamenti.find? (fun r => r.id_appuntamento == i) = some app →
      ∀ s, a.ora_inizio = some s → (s != "") = true →
      ∃ f, ricalcola_ora_fine app s a.durata_minuti = Except.ok f) :
    (update_appointment db now i a).1.success = true ↔
      ((db.appuntamenti.find? (fun r => r.id_appuntamento == i)).isSome ∧
       (truthyStr a.data_appuntamento || truthyStr a.ora_inizio ||
        truthyStr a.titolo || a.descrizione.isSome || truthyStr a.stato ||
        a.urgente.isSome || a.note.isSome) = true ∧
       (db.appuntamenti.find? (fun r =>
         r.id_appuntamento == i && (joinCliente db r).isSome)).isSome) := by
  rcases hfind : db.appuntamenti.find? (fun r => r.id_appuntamento == i) with _ | app
  · rw [update_appointment_run_notfound db now i a hfind]
    constructor
    · intro hc
      simp [errRes] at hc
    · rintro ⟨hsome, -, -⟩
      rw [hfind] at hsome
      simp at hsome
  · cases hstr : truthyStr a.ora_inizio
    · cases hany : anyAppUpdate a none
      · rw [update_appointment_run_noora_none db now i a app hfind hstr hany]
        unfold anyAppUpdate at hany
        simp only [Option.isSome_none, Bool.or_false, Bool.false_or] at hany
        constructor
        · intro hc
          simp [errRes] at hc
        · rintro ⟨-, hor, -⟩
          simp only [Bool.or_false, Bool.false_or] at hor
          rw [hor] at hany
          cases hany
      · have hrun := (update_appointment_run_noora db now i a app hfind hstr hany).2
        rw [rifetch_updatedDB] at hrun
        rw [hrun]
        unfold anyAppUpdate at hany
        simp only [Option.isSome_none, Bool.or_false, Bool.false_or] at hany
        constructor
        · intro hfetch
          refine ⟨by rw [hfind]; rfl, ?_, hfetch⟩
          simpa only [Bool.or_false, Bool.false_or] using hany
        · rintro ⟨-, -, hfetch⟩
          exact hfetch
    · rcases hsi : a.ora_inizio with _ | s
      · rw [hsi] at hstr
        simp [truthyStr] at hstr
      · have hst : (s != "") = true := by
          rw [hsi] at hstr
          simpa [truthyStr] using hstr
        obtain ⟨f, hric⟩ := hok app hfind s hsi hst
        have hrun := (update_appointment_run_ora db now i a app s f hfind hsi hst hric).2
        rw [rifetch_updatedDB] at hrun
        rw [hrun]
        constructor
        · intro hfetch
          exact ⟨by rw [hfind]; rfl, by simp, hfetch⟩
        · rintro ⟨-, -, hfetch⟩
          exact hfetch

theorem update_appointment_success_iff_witness :
    (∀ app, dbC4.appuntamenti.find? (fun r => r.id_appuntamento == 2) = some app →
      ∀ s, argsC4.ora_inizio = some s → (s != "") = true →
      ∃ f, ricalcola_ora_fine app s argsC4.durata_minuti = Except.ok f) ∧
    ((update_appointment dbC4 7 2 argsC4).1.success = true ↔
      ((dbC4.appuntamenti.find? (fun r => r.id_appuntamento == 2)).isSome ∧
       (truthyStr argsC4.data_appuntamento || truthyStr argsC4.ora_inizio ||
        truthyStr argsC4.titolo || argsC4.descrizione.isSome ||
        truthyStr argsC4.stato || argsC4.urgente.isSome ||
        argsC4.note.isSome) = true ∧
       (dbC4.appuntamenti.find? (fun r =>
         r.id_appuntamento == 2 && (joinCliente dbC4 r).isSome)).isSome)) :=
  ⟨fun app happ s hs _ => by
      have h1 : dbC4.appuntamenti.find? (fun r => r.id_appuntamento == 2) =
          some apptC4b := by decide
      rw [h1] at happ
      cases happ
      cases hs
      exact ⟨"11:30", rfl⟩,
   update_appointment_success_iff dbC4 7 2 argsC4 (fun app happ s hs _ => by
      have h1 : dbC4.appuntamenti.find? (fun r => r.id_appuntamento == 2) =
          some apptC4b := by decide
      rw [h1] at happ
      cases happ
      cases hs
      exact ⟨"11:30", rfl⟩)⟩
